import Mathlib

/-!
Verification of the hottoh_api device-communication engine.

Shallow embedding of the Rust sources:
  src/hottoh/hottoh_const.rs     (Command, CommandType, StoveState)
  src/hottoh/hottoh_structs.rs   (payload records, calculate_checksum, parse_bool)
  src/hottoh/tcp_client_structs.rs (Request, Response, build_message, from_message)
  src/hottoh/tcp_client.rs       (message management pass, clean_queues, poller, dedup)
  src/hottoh/shared_struct.rs    (SharedState)
  src/hottoh/http_api.rs         (handle_request)

Modelling conventions:
  * Rust strings are modelled as `List Char`; all protocol text is ASCII, so
    byte offsets and char offsets coincide (byte slicing = char slicing).
  * Machine integers are Nat / Int with explicit range checks where the Rust
    code can fail (`parse::<u16>` etc.); counter arithmetic wraps mod 2^32.
  * Fallible Rust code returns `RustResult`; out-of-bounds slice indexing and
    `Option::unwrap` on `None` are modelled by the `panicked` outcome.
  * Wall-clock `Instant` values are modelled as milliseconds (Nat);
    `Duration::as_secs` is truncating division by 1000.
  * The `last_updated` fields (wall-clock capture strings) and the textual
    payloads of error messages are elided; error variants are preserved.
-/

namespace Hottoh

/-- A Rust string, as a list of (ASCII) chars. -/
abbrev Str := List Char

/-- Error variants that `Response::from_message` and the payload parsers can
produce.  Message payloads (format! strings) are elided; each constructor
records which error site fired. -/
inductive FMErr where
  | invalidReqId
  | missingSeparator
  | invalidParamLen
  | invalidCommand
  | invalidCommandType
  | notImplemented
  | incorrectStruct
  | tryIntoFailed
  deriving DecidableEq

/-- Outcome of running a piece of fallible Rust code: normal return,
`Err` return, or a panic (out-of-bounds slice indexing / unwrap on None). -/
inductive RustResult (α : Type) where
  | ok (a : α)
  | err (e : FMErr)
  | panicked
  deriving DecidableEq

namespace RustResult

def bind {α β : Type} : RustResult α → (α → RustResult β) → RustResult β
  | .ok a, f => f a
  | .err e, _ => .err e
  | .panicked, _ => .panicked

instance : Monad RustResult where
  pure := .ok
  bind := bind

@[simp] theorem bind_ok_left {α β : Type} (a : α) (f : α → RustResult β) :
    bind (.ok a) f = f a := rfl

@[simp] theorem bind_err_left {α β : Type} (e : FMErr) (f : α → RustResult β) :
    bind (.err e) f = .err e := rfl

@[simp] theorem bind_panicked_left {α β : Type} (f : α → RustResult β) :
    bind (.panicked) f = .panicked := rfl

theorem bind_eq_ok {α β : Type} {x : RustResult α} {f : α → RustResult β} {c : β} :
    bind x f = .ok c ↔ ∃ b, x = .ok b ∧ f b = .ok c := by
  cases x <;> simp [bind]

/-- `Some(_).ok_or(e)` / `None.ok_or(e)`. -/
def ofOption {α : Type} (o : Option α) (e : FMErr) : RustResult α :=
  match o with
  | some a => .ok a
  | none => .err e

@[simp] theorem ofOption_some {α : Type} (a : α) (e : FMErr) :
    ofOption (some a) e = .ok a := rfl

@[simp] theorem ofOption_none {α : Type} (e : FMErr) :
    ofOption (none : Option α) e = .err e := rfl

theorem ofOption_eq_ok {α : Type} {o : Option α} {e : FMErr} {a : α} :
    ofOption o e = .ok a ↔ o = some a := by
  cases o <;> simp [ofOption]

end RustResult

/-! ## Decimal / hexadecimal digit strings

`fmtDec` models Rust `Display` for unsigned integers (minimal decimal
digits, `"0"` for zero); `padZeroLeft w` models the `{:0w}` format padding;
`fmtHexUpper` models `{:X}`.  A fuel-based digit extractor is used so that
everything reduces in the kernel; it is proved equal to `Nat.digits`. -/

/-- Decimal digit character (digits are always `< 10` at call sites). -/
def decDigitChar : Nat → Char
  | 0 => '0' | 1 => '1' | 2 => '2' | 3 => '3' | 4 => '4'
  | 5 => '5' | 6 => '6' | 7 => '7' | 8 => '8' | 9 => '9'
  | _ => '0'

/-- Uppercase hexadecimal digit character (digits `< 16` at call sites). -/
def hexDigitCharUpper : Nat → Char
  | 0 => '0' | 1 => '1' | 2 => '2' | 3 => '3' | 4 => '4'
  | 5 => '5' | 6 => '6' | 7 => '7' | 8 => '8' | 9 => '9'
  | 10 => 'A' | 11 => 'B' | 12 => 'C' | 13 => 'D' | 14 => 'E' | 15 => 'F'
  | _ => '0'

/-- Little-endian digits of `n` in base `b`, with structural fuel so the
kernel can evaluate it.  Equal to `Nat.digits b n` when `2 ≤ b` and the fuel
dominates `n` (`digitsFuel_eq_digits`). -/
def digitsFuel (b : Nat) : Nat → Nat → List Nat
  | 0, _ => []
  | _ + 1, 0 => []
  | fuel + 1, n + 1 => (n + 1) % b :: digitsFuel b fuel ((n + 1) / b)

theorem digitsFuel_eq_digits (b : Nat) (hb : 2 ≤ b) :
    ∀ fuel n, n ≤ fuel → digitsFuel b fuel n = Nat.digits b n := by
  intro fuel
  induction fuel with
  | zero =>
    intro n hn
    interval_cases n
    simp [digitsFuel]
  | succ f ih =>
    intro n hn
    match n with
    | 0 => simp [digitsFuel]
    | m + 1 =>
      rw [digitsFuel, Nat.digits_def' (by omega : 1 < b) (Nat.succ_pos m)]
      congr 1
      have hlt : (m + 1) / b < m + 1 := Nat.div_lt_self (by omega) (by omega)
      exact ih _ (by omega)

/-- Little-endian base-`b` digits of `n` (kernel-computable). -/
def natDigits (b n : Nat) : List Nat := digitsFuel b n n

theorem natDigits_eq_digits (b n : Nat) (hb : 2 ≤ b) :
    natDigits b n = Nat.digits b n :=
  digitsFuel_eq_digits b hb n n le_rfl

/-- Minimal base-`b` digit string of `n`, most significant first, `"0"` for
zero. -/
def fmtBase (b : Nat) (dig : Nat → Char) (n : Nat) : Str :=
  if n = 0 then ['0'] else ((natDigits b n).reverse.map dig)

/-- Rust `Display` for an unsigned integer: minimal decimal digits, most
significant first, `"0"` for zero. -/
def fmtDec (n : Nat) : Str := fmtBase 10 decDigitChar n

/-- Rust `{:X}`: minimal uppercase hexadecimal digits, `"0"` for zero. -/
def fmtHexUpper (n : Nat) : Str := fmtBase 16 hexDigitCharUpper n

/-- Rust `{:0w}` zero-padding: pad on the left with `'0'` to width at least
`w`. -/
def padZeroLeft (w : Nat) (s : Str) : Str :=
  List.replicate (w - s.length) '0' ++ s

/-- `format!("{:05}", n)`. -/
def fmt05 (n : Nat) : Str := padZeroLeft 5 (fmtDec n)

/-- `format!("{:04X}", n)`. -/
def fmtHex4 (n : Nat) : Str := padZeroLeft 4 (fmtHexUpper n)

/-- Value of a decimal digit character, if it is one. -/
def decDigitVal (c : Char) : Option Nat :=
  if c.toNat ≥ 48 ∧ c.toNat ≤ 57 then some (c.toNat - 48) else none

/-- Value of a hexadecimal digit character (Rust `from_str_radix` accepts
both cases), if it is one. -/
def hexDigitVal (c : Char) : Option Nat :=
  if c.toNat ≥ 48 ∧ c.toNat ≤ 57 then some (c.toNat - 48)
  else if c.toNat ≥ 65 ∧ c.toNat ≤ 70 then some (c.toNat - 55)
  else if c.toNat ≥ 97 ∧ c.toNat ≤ 102 then some (c.toNat - 87)
  else none

/-- Accumulate digit characters left to right; `none` on any non-digit. -/
def parseDigitsAux (dv : Char → Option Nat) (base : Nat) : Str → Nat → Option Nat
  | [], acc => some acc
  | c :: cs, acc =>
    match dv c with
    | none => none
    | some d => parseDigitsAux dv base cs (acc * base + d)

/-- Shared body of Rust's unsigned `from_str` / `from_str_radix`: an optional
leading `'+'`, then one or more digits, value below `bound` (for `u32`,
`2^32`; overflow during accumulation is equivalent to a final bound check
because the accumulator is monotone). -/
def rustParseUnsigned (dv : Char → Option Nat) (base : Nat) (bound : Nat)
    (s : Str) : Option Nat :=
  let s2 := if s.head? = some '+' then s.tail else s
  if s2 = [] then none
  else
    match parseDigitsAux dv base s2 0 with
    | none => none
    | some v => if v < bound then some v else none

/-- `str::parse::<u32>`. -/
def parseU32Dec (s : Str) : Option Nat :=
  rustParseUnsigned decDigitVal 10 4294967296 s

/-- `str::parse::<u16>`. -/
def parseU16Dec (s : Str) : Option Nat :=
  rustParseUnsigned decDigitVal 10 65536 s

/-- `usize::from_str_radix(_, 16)` (64-bit `usize`). -/
def parseUsizeHex (s : Str) : Option Nat :=
  rustParseUnsigned hexDigitVal 16 18446744073709551616 s

/-- Signed Rust parse (`parse::<i16>` / `parse::<i32>`): optional sign, one
or more digits, result within `[lo, hi]`. -/
def rustParseSigned (lo hi : Int) (s : Str) : Option Int :=
  if s.head? = some '-' then
    match (if s.tail = [] then none else parseDigitsAux decDigitVal 10 s.tail 0) with
    | none => none
    | some v => if lo ≤ -(v : Int) then some (-(v : Int)) else none
  else
    let s2 := if s.head? = some '+' then s.tail else s
    match (if s2 = [] then none else parseDigitsAux decDigitVal 10 s2 0) with
    | none => none
    | some v => if (v : Int) ≤ hi then some (v : Int) else none

/-- `str::parse::<i16>`. -/
def parseI16Dec (s : Str) : Option Int := rustParseSigned (-32768) 32767 s

/-- `str::parse::<i32>`. -/
def parseI32Dec (s : Str) : Option Int := rustParseSigned (-2147483648) 2147483647 s

/-! ## CRC-16/CCITT-FALSE (`calculate_checksum`, hottoh_structs.rs:648) -/

/-- One bit step of CRC-16/CCITT-FALSE (poly 0x1021), on a 16-bit value. -/
def crcRound (c : Nat) : Nat :=
  if c &&& 32768 ≠ 0 then ((c <<< 1) ^^^ 4129) &&& 65535 else (c <<< 1) &&& 65535

/-- Eight bit steps. -/
def crc8 (c : Nat) : Nat :=
  crcRound (crcRound (crcRound (crcRound (crcRound (crcRound (crcRound (crcRound c)))))))

/-- Digest one byte: xor into the high byte of the register, then 8 rounds. -/
def crcByte (c b : Nat) : Nat := crc8 (c ^^^ ((b % 256) <<< 8))

/-- `calculate_checksum`: CRC-16/CCITT-FALSE (init 0xFFFF) over the ASCII
bytes, formatted `{:04X}`. -/
def calculateChecksum (s : Str) : Str :=
  fmtHex4 (s.foldl (fun c ch => crcByte c ch.toNat) 65535)

/-! ## Protocol enums (hottoh_const.rs) -/

/-- `CommandType` (hottoh_const.rs:7). -/
inductive CommandType where
  | Read
  | Write
  | Execute
  deriving DecidableEq

/-- `CommandType::as_str` (hottoh_const.rs:44). -/
def CommandType.asStr : CommandType → Str
  | .Read => ['R']
  | .Write => ['W']
  | .Execute => ['E']

/-- `CommandType::from_str` (hottoh_const.rs:28). -/
def CommandType.fromStr (s : Str) : RustResult CommandType :=
  if s = ['R'] then .ok .Read
  else if s = ['W'] then .ok .Write
  else if s = ['E'] then .ok .Execute
  else .err .invalidCommandType

/-- `Command` (hottoh_const.rs:55). -/
inductive Command where
  | Inf
  | Dat
  | Dat0
  | Dat1
  | Dat2
  | DatReqResponse
  deriving DecidableEq

/-- `Command::as_str` (hottoh_const.rs:76). -/
def Command.asStr : Command → Str
  | .Inf => ['I', 'N', 'F']
  | .Dat => ['D', 'A', 'T']
  | .Dat0 => ['D', 'A', 'T', '0']
  | .Dat1 => ['D', 'A', 'T', '1']
  | .Dat2 => ['D', 'A', 'T', '2']
  | .DatReqResponse =>
    ['D', 'A', 'T', 'R', 'e', 'q', 'R', 'e', 's', 'p', 'o', 'n', 's', 'e']

/-- `Command::from_str` (hottoh_const.rs:100). -/
def Command.fromStr (s : Str) : RustResult Command :=
  if s = ['I', 'N', 'F'] then .ok .Inf
  else if s = ['D', 'A', 'T'] then .ok .Dat
  else if s = ['D', 'A', 'T', '0'] then .ok .Dat0
  else if s = ['D', 'A', 'T', '1'] then .ok .Dat1
  else if s = ['D', 'A', 'T', '2'] then .ok .Dat2
  else if s = ['D', 'A', 'T', 'R', 'e', 'q', 'R', 'e', 's', 'p', 'o', 'n', 's', 'e']
    then .ok .DatReqResponse
  else .err .invalidCommand

/-- `StoveState` (hottoh_const.rs:115). -/
inductive StoveState where
  | Off | Starting1 | Starting2 | Starting3 | Starting4 | Starting5
  | Starting6 | Starting7 | Power | Stopping1 | Stopping2 | EcoStop1
  | EcoStop2 | EcoStop3 | LowPellet | EndPellet | BlackOut | AntiFreeze
  | IgnitionFailed | NoPellet | CoverOpen
  deriving DecidableEq

/-- `StoveState::from_str` (hottoh_const.rs:156): parse as `i32`, then match
the fixed numeric codes. -/
def StoveState.fromStr (s : Str) : Option StoveState :=
  match parseI32Dec s with
  | none => none
  | some n =>
    if n = 0 then some .Off
    else if n = 1 then some .Starting1
    else if n = 2 then some .Starting2
    else if n = 3 then some .Starting3
    else if n = 4 then some .Starting4
    else if n = 5 then some .Starting5
    else if n = 6 then some .Starting6
    else if n = 7 then some .Starting7
    else if n = 8 then some .Power
    else if n = 9 then some .Stopping1
    else if n = 10 then some .Stopping2
    else if n = 11 then some .EcoStop1
    else if n = 12 then some .EcoStop2
    else if n = 13 then some .EcoStop3
    else if n = 14 then some .LowPellet
    else if n = 15 then some .EndPellet
    else if n = 16 then some .BlackOut
    else if n = 17 then some .AntiFreeze
    else if n = 60 then some .IgnitionFailed
    else if n = 61 then some .NoPellet
    else if n = 69 then some .CoverOpen
    else none

/-! ## Payload records and field parsers (hottoh_structs.rs) -/

/-- `parse_bool` (hottoh_structs.rs:654): `"0"` / `"1"` only. -/
def parseBool (s : Str) : Option Bool :=
  if s = ['0'] then some false
  else if s = ['1'] then some true
  else none

/-- `INFData` (hottoh_structs.rs:9); `last_updated` elided. -/
structure INFData where
  hostname : Str
  version : Str
  signal : Str
  deriving DecidableEq

/-- Rust `Default` for `INFData`. -/
def INFData.default : INFData := ⟨[], [], []⟩

/-- `INFData::from_slice` (hottoh_structs.rs:17): exactly 3 elements. -/
def INFData.fromSlice (d : List Str) : RustResult INFData :=
  if d.length ≠ 3 then .err .incorrectStruct
  else .ok ⟨d.getD 0 [], d.getD 1 [], d.getD 2 []⟩

/-- `DATReqResponseData` (hottoh_structs.rs:35). -/
structure DATReqResponseData where
  value : Str
  deriving DecidableEq

/-- `DATReqResponseData::from_slice` (hottoh_structs.rs:40): exactly 1
element. -/
def DATReqResponseData.fromSlice (d : List Str) : RustResult DATReqResponseData :=
  if d.length ≠ 1 then .err .incorrectStruct
  else .ok ⟨d.getD 0 []⟩

/-- `DAT0Data` (hottoh_structs.rs:53); `last_updated` elided.  `u16` fields
are `Nat`, `i16` fields are `Int`. -/
structure DAT0Data where
  index_page : Nat
  index_manufacturer : Nat
  index_bitmap_visible : Bool
  index_valid : Bool
  index_stove_type : Nat
  index_stove_state : StoveState
  index_stove_on : Bool
  index_eco_mode : Bool
  index_timer_on : Nat
  index_ambient_t1 : Int
  index_ambient_t1_set : Int
  index_ambient_t1_set_min : Int
  index_ambient_t1_set_max : Int
  index_ambient_t2 : Int
  index_ambient_t2_set : Int
  index_ambient_t2_set_min : Int
  index_ambient_t2_set_max : Int
  index_water : Int
  index_water_set : Int
  index_water_set_min : Int
  index_water_set_max : Int
  index_smoke_t : Int
  index_power_level : Nat
  index_power_set : Nat
  index_power_min : Nat
  index_power_max : Nat
  index_fan_smoke : Nat
  index_fan_1 : Nat
  index_fan_1_set : Nat
  index_fan_1_set_max : Nat
  index_fan_2 : Nat
  index_fan_2_set : Nat
  index_fan_2_set_max : Nat
  index_fan_3 : Nat
  index_fan_3_set : Nat
  index_fan_3_set_max : Nat
  boiler_enabled : Bool
  domestic_hot_water_enabled : Bool
  fan_number : Nat
  temp_room1_enabled : Bool
  temp_room2_enabled : Bool
  temp_room3_enabled : Bool
  temp_water_enabled : Bool
  pump_enabled : Bool
  deriving DecidableEq

/-- Rust `Default` for `DAT0Data` (all-zero / `false` / `Off`). -/
def DAT0Data.default : DAT0Data :=
  ⟨0, 0, false, false, 0, .Off, false, false, 0,
   0, 0, 0, 0, 0, 0, 0, 0, 0, 0, 0, 0, 0,
   0, 0, 0, 0, 0, 0, 0, 0, 0, 0, 0, 0, 0, 0,
   false, false, 0, false, false, false, false, false⟩

/-- Bind a fallible field parse, mapping failure to the structural error
(the Rust `map_err` + `?` pattern on each field). -/
def pfield {α β : Type} (o : Option α) (k : α → RustResult β) : RustResult β :=
  match o with
  | none => .err .incorrectStruct
  | some a => k a

@[simp] theorem pfield_some {α β : Type} (a : α) (k : α → RustResult β) :
    pfield (some a) k = k a := rfl

@[simp] theorem pfield_none {α β : Type} (k : α → RustResult β) :
    pfield (none : Option α) k = .err .incorrectStruct := rfl

theorem pfield_eq_ok {α β : Type} {o : Option α} {k : α → RustResult β} {b : β} :
    pfield o k = .ok b ↔ ∃ a, o = some a ∧ k a = .ok b := by
  cases o <;> simp [pfield]

/-- `DAT0Data::from_slice` (hottoh_structs.rs:116): arity 36, device-type
bitmask decode (lines 137-144), then the 36 field parses in source order. -/
def DAT0Data.fromSlice (d : List Str) : RustResult DAT0Data :=
  if d.length ≠ 36 then .err .incorrectStruct
  else
    pfield (parseU16Dec (d.getD 4 [])) fun index_stove_type =>
    let boiler_enabled := index_stove_type &&& (1 <<< 6) ≠ 0
    let domestic_hot_water_enabled := index_stove_type &&& (1 <<< 5) ≠ 0
    let fan_number := (index_stove_type >>> 2) &&& 3
    let temp_room1_enabled := index_stove_type &&& (1 <<< 0) ≠ 0
    let temp_room2_enabled := index_stove_type &&& (1 <<< 8) ≠ 0
    let temp_room3_enabled := index_stove_type &&& (1 <<< 7) ≠ 0
    let temp_water_enabled := index_stove_type &&& (1 <<< 1) ≠ 0
    let pump_enabled := index_stove_type &&& (1 <<< 4) ≠ 0
    pfield (parseU16Dec (d.getD 0 [])) fun index_page =>
    pfield (parseU16Dec (d.getD 1 [])) fun index_manufacturer =>
    pfield (parseBool (d.getD 2 [])) fun index_bitmap_visible =>
    pfield (parseBool (d.getD 3 [])) fun index_valid =>
    pfield (StoveState.fromStr (d.getD 5 [])) fun index_stove_state =>
    pfield (parseBool (d.getD 6 [])) fun index_stove_on =>
    pfield (parseBool (d.getD 7 [])) fun index_eco_mode =>
    pfield (parseU16Dec (d.getD 8 [])) fun index_timer_on =>
    pfield (parseI16Dec (d.getD 9 [])) fun index_ambient_t1 =>
    pfield (parseI16Dec (d.getD 10 [])) fun index_ambient_t1_set =>
    pfield (parseI16Dec (d.getD 11 [])) fun index_ambient_t1_set_min =>
    pfield (parseI16Dec (d.getD 12 [])) fun index_ambient_t1_set_max =>
    pfield (parseI16Dec (d.getD 13 [])) fun index_ambient_t2 =>
    pfield (parseI16Dec (d.getD 14 [])) fun index_ambient_t2_set =>
    pfield (parseI16Dec (d.getD 15 [])) fun index_ambient_t2_set_min =>
    pfield (parseI16Dec (d.getD 16 [])) fun index_ambient_t2_set_max =>
    pfield (parseI16Dec (d.getD 17 [])) fun index_water =>
    pfield (parseI16Dec (d.getD 18 [])) fun index_water_set =>
    pfield (parseI16Dec (d.getD 19 [])) fun index_water_set_min =>
    pfield (parseI16Dec (d.getD 20 [])) fun index_water_set_max =>
    pfield (parseI16Dec (d.getD 21 [])) fun index_smoke_t =>
    pfield (parseU16Dec (d.getD 22 [])) fun index_power_level =>
    pfield (parseU16Dec (d.getD 23 [])) fun index_power_set =>
    pfield (parseU16Dec (d.getD 24 [])) fun index_power_min =>
    pfield (parseU16Dec (d.getD 25 [])) fun index_power_max =>
    pfield (parseU16Dec (d.getD 26 [])) fun index_fan_smoke =>
    pfield (parseU16Dec (d.getD 27 [])) fun index_fan_1 =>
    pfield (parseU16Dec (d.getD 28 [])) fun index_fan_1_set =>
    pfield (parseU16Dec (d.getD 29 [])) fun index_fan_1_set_max =>
    pfield (parseU16Dec (d.getD 30 [])) fun index_fan_2 =>
    pfield (parseU16Dec (d.getD 31 [])) fun index_fan_2_set =>
    pfield (parseU16Dec (d.getD 32 [])) fun index_fan_2_set_max =>
    pfield (parseU16Dec (d.getD 33 [])) fun index_fan_3 =>
    pfield (parseU16Dec (d.getD 34 [])) fun index_fan_3_set =>
    pfield (parseU16Dec (d.getD 35 [])) fun index_fan_3_set_max =>
    .ok ⟨index_page, index_manufacturer, index_bitmap_visible, index_valid,
      index_stove_type, index_stove_state, index_stove_on, index_eco_mode,
      index_timer_on, index_ambient_t1, index_ambient_t1_set,
      index_ambient_t1_set_min, index_ambient_t1_set_max, index_ambient_t2,
      index_ambient_t2_set, index_ambient_t2_set_min, index_ambient_t2_set_max,
      index_water, index_water_set, index_water_set_min, index_water_set_max,
      index_smoke_t, index_power_level, index_power_set, index_power_min,
      index_power_max, index_fan_smoke, index_fan_1, index_fan_1_set,
      index_fan_1_set_max, index_fan_2, index_fan_2_set, index_fan_2_set_max,
      index_fan_3, index_fan_3_set, index_fan_3_set_max,
      boiler_enabled, domestic_hot_water_enabled, fan_number,
      temp_room1_enabled, temp_room2_enabled, temp_room3_enabled,
      temp_water_enabled, pump_enabled⟩

/-- `DAT1Data` (hottoh_structs.rs:371); `last_updated` elided. -/
structure DAT1Data where
  index_page : Int
  index_state : Bool
  index_temperature_1 : Int
  index_temperature_1_min : Int
  index_temperature_1_max : Int
  index_temperature_2 : Int
  index_temperature_2_min : Int
  index_temperature_2_max : Int
  index_temperature_3 : Int
  index_temperature_3_min : Int
  index_temperature_3_max : Int
  deriving DecidableEq

/-- Rust `Default` for `DAT1Data`. -/
def DAT1Data.default : DAT1Data := ⟨0, false, 0, 0, 0, 0, 0, 0, 0, 0, 0⟩

/-- `DAT1Data::from_slice` (hottoh_structs.rs:387): arity 11; note that both
`index_page` and `index_state` are parsed from element 0 and element 10 is
unused, exactly as in the source. -/
def DAT1Data.fromSlice (d : List Str) : RustResult DAT1Data :=
  if d.length ≠ 11 then .err .incorrectStruct
  else
    pfield (parseI16Dec (d.getD 0 [])) fun index_page =>
    pfield (parseBool (d.getD 0 [])) fun index_state =>
    pfield (parseI16Dec (d.getD 1 [])) fun index_temperature_1 =>
    pfield (parseI16Dec (d.getD 2 [])) fun index_temperature_1_min =>
    pfield (parseI16Dec (d.getD 3 [])) fun index_temperature_1_max =>
    pfield (parseI16Dec (d.getD 4 [])) fun index_temperature_2 =>
    pfield (parseI16Dec (d.getD 5 [])) fun index_temperature_2_min =>
    pfield (parseI16Dec (d.getD 6 [])) fun index_temperature_2_max =>
    pfield (parseI16Dec (d.getD 7 [])) fun index_temperature_3 =>
    pfield (parseI16Dec (d.getD 8 [])) fun index_temperature_3_min =>
    pfield (parseI16Dec (d.getD 9 [])) fun index_temperature_3_max =>
    .ok ⟨index_page, index_state, index_temperature_1, index_temperature_1_min,
      index_temperature_1_max, index_temperature_2, index_temperature_2_min,
      index_temperature_2_max, index_temperature_3, index_temperature_3_min,
      index_temperature_3_max⟩

/-- `DAT2Data` (hottoh_structs.rs:467); `last_updated` elided. -/
structure DAT2Data where
  index_page : Int
  index_flow_switch : Nat
  index_generic_pump : Nat
  index_airex_1 : Nat
  index_airex_2 : Nat
  index_airex_3 : Nat
  index_puffer : Int
  index_puffer_set : Int
  index_puffer_set_min : Int
  index_puffer_set_max : Int
  index_boiler : Int
  index_boiler_set : Int
  index_boiler_set_min : Int
  index_boiler_set_max : Int
  index_dhw : Int
  index_dhw_set : Int
  index_dhw_set_min : Int
  index_dhw_set_max : Int
  index_room_temp_3 : Int
  index_room_temp_3_set : Int
  index_room_temp_3_set_min : Int
  index_room_temp_3_set_max : Int
  deriving DecidableEq

/-- Rust `Default` for `DAT2Data`. -/
def DAT2Data.default : DAT2Data :=
  ⟨0, 0, 0, 0, 0, 0, 0, 0, 0, 0, 0, 0, 0, 0, 0, 0, 0, 0, 0, 0, 0, 0⟩

/-- `DAT2Data::from_slice` (hottoh_structs.rs:494): arity 22. -/
def DAT2Data.fromSlice (d : List Str) : RustResult DAT2Data :=
  if d.length ≠ 22 then .err .incorrectStruct
  else
    pfield (parseI16Dec (d.getD 0 [])) fun index_page =>
    pfield (parseU16Dec (d.getD 1 [])) fun index_flow_switch =>
    pfield (parseU16Dec (d.getD 2 [])) fun index_generic_pump =>
    pfield (parseU16Dec (d.getD 3 [])) fun index_airex_1 =>
    pfield (parseU16Dec (d.getD 4 [])) fun index_airex_2 =>
    pfield (parseU16Dec (d.getD 5 [])) fun index_airex_3 =>
    pfield (parseI16Dec (d.getD 6 [])) fun index_puffer =>
    pfield (parseI16Dec (d.getD 7 [])) fun index_puffer_set =>
    pfield (parseI16Dec (d.getD 8 [])) fun index_puffer_set_min =>
    pfield (parseI16Dec (d.getD 9 [])) fun index_puffer_set_max =>
    pfield (parseI16Dec (d.getD 10 [])) fun index_boiler =>
    pfield (parseI16Dec (d.getD 11 [])) fun index_boiler_set =>
    pfield (parseI16Dec (d.getD 12 [])) fun index_boiler_set_min =>
    pfield (parseI16Dec (d.getD 13 [])) fun index_boiler_set_max =>
    pfield (parseI16Dec (d.getD 14 [])) fun index_dhw =>
    pfield (parseI16Dec (d.getD 15 [])) fun index_dhw_set =>
    pfield (parseI16Dec (d.getD 16 [])) fun index_dhw_set_min =>
    pfield (parseI16Dec (d.getD 17 [])) fun index_dhw_set_max =>
    pfield (parseI16Dec (d.getD 18 [])) fun index_room_temp_3 =>
    pfield (parseI16Dec (d.getD 19 [])) fun index_room_temp_3_set =>
    pfield (parseI16Dec (d.getD 20 [])) fun index_room_temp_3_set_min =>
    pfield (parseI16Dec (d.getD 21 [])) fun index_room_temp_3_set_max =>
    .ok ⟨index_page, index_flow_switch, index_generic_pump, index_airex_1,
      index_airex_2, index_airex_3, index_puffer, index_puffer_set,
      index_puffer_set_min, index_puffer_set_max, index_boiler,
      index_boiler_set, index_boiler_set_min, index_boiler_set_max,
      index_dhw, index_dhw_set, index_dhw_set_min, index_dhw_set_max,
      index_room_temp_3, index_room_temp_3_set, index_room_temp_3_set_min,
      index_room_temp_3_set_max⟩

/-- `CommandData` (hottoh_structs.rs:640). -/
inductive CommandData where
  | Inf (d : INFData)
  | Dat0 (d : DAT0Data)
  | Dat1 (d : DAT1Data)
  | Dat2 (d : DAT2Data)
  | DATReqResponse (d : DATReqResponseData)
  deriving DecidableEq

/-! ## Request / Response (tcp_client_structs.rs) -/

/-- `Request` (tcp_client_structs.rs:24).  `sent_at` is an `Instant`,
modelled as milliseconds. -/
structure Request where
  req_id : Nat
  command : Command
  command_type : CommandType
  params : List Str
  sent : Bool
  sent_at : Option Nat
  marked_as_deleted : Bool
  deriving DecidableEq

/-- `Request::new` (tcp_client_structs.rs:66). -/
def Request.new (req_id : Nat) (command : Command) (command_type : CommandType)
    (params : List Str) : Request :=
  ⟨req_id, command, command_type, params, false, none, false⟩

/-- `Request::build_message` (tcp_client_structs.rs:96). -/
def Request.buildMessage (r : Request) : Str :=
  let cmd_type_str := r.command_type.asStr
  let command := r.command.asStr
  let params := List.intercalate [';'] r.params ++ [';']
  let length := fmtHex4 params.length
  let crc_input :=
    fmt05 r.req_id ++ ['C', '-', '-', '-'] ++ length ++ command
      ++ cmd_type_str ++ params
  let checksum := calculateChecksum crc_input
  ['#'] ++ fmt05 r.req_id ++ ['C', '-', '-', '-'] ++ length ++ command
    ++ cmd_type_str ++ params ++ checksum ++ ['\n']

/-- `Response` (tcp_client_structs.rs:191). -/
structure Response where
  req_id : Nat
  command : Command
  command_type : CommandType
  params_len : Nat
  params : List Str
  command_data : CommandData
  crc : Str
  crc_is_valid : Bool
  marked_as_deleted : Bool
  deriving DecidableEq

/-- `Response::command_data_from_vec` (tcp_client_structs.rs:214). -/
def commandDataFromVec (data : List Str) (command : Command) :
    RustResult CommandData :=
  match command with
  | .Inf => (INFData.fromSlice data).bind fun d => .ok (.Inf d)
  | .Dat0 => (DAT0Data.fromSlice data).bind fun d => .ok (.Dat0 d)
  | .Dat1 => (DAT1Data.fromSlice data).bind fun d => .ok (.Dat1 d)
  | .Dat2 => (DAT2Data.fromSlice data).bind fun d => .ok (.Dat2 d)
  | .DatReqResponse =>
    (DATReqResponseData.fromSlice data).bind fun d => .ok (.DATReqResponse d)
  | .Dat => .err .notImplemented

/-- Rust byte-range slicing `&s[a..b]`: panics when `a > b` or `b` exceeds
the length (ASCII text, so bytes = chars).  The `s.len() - k` subtractions
in the source are also out-of-range (hence a panic) exactly when the Nat
truncation here makes `a > b`. -/
def rslice (s : Str) (a b : Nat) : RustResult Str :=
  if a ≤ b ∧ b ≤ s.length then .ok ((s.drop a).take (b - a)) else .panicked

theorem rslice_eq_ok {s : Str} {a b : Nat} {v : Str} :
    rslice s a b = .ok v ↔ a ≤ b ∧ b ≤ s.length ∧ v = (s.drop a).take (b - a) := by
  unfold rslice
  split
  · rename_i h
    constructor
    · intro hv
      cases hv
      exact ⟨h.1, h.2, rfl⟩
    · rintro ⟨-, -, rfl⟩
      rfl
  · rename_i h
    constructor
    · intro hv
      cases hv
    · rintro ⟨h1, h2, -⟩
      exact absurd ⟨h1, h2⟩ h

/-- `usize -> u32` `try_into` in `from_message`. -/
def tryIntoU32 (n : Nat) : RustResult Nat :=
  if n < 4294967296 then .ok n else .err .tryIntoFailed

/-- `Response::from_message` (tcp_client_structs.rs:242), including the
re-specialization of the generic `DAT` command by parameter count
(lines 270-284; other counts only log a warning and keep `DAT`). -/
def fromMessage (m : Str) : RustResult Response :=
  (rslice m 1 6).bind fun idS =>
  (RustResult.ofOption (parseU32Dec idS) .invalidReqId).bind fun req_id =>
  (RustResult.ofOption m[6]? .missingSeparator).bind fun req_id_char =>
  (rslice m 10 14).bind fun lenS =>
  (RustResult.ofOption (parseUsizeHex lenS) .invalidParamLen).bind fun params_len =>
  (rslice m 14 17).bind fun cmdS =>
  (Command.fromStr cmdS).bind fun command =>
  (rslice m 17 18).bind fun ctS =>
  (CommandType.fromStr ctS).bind fun command_type =>
  (rslice m 18 (m.length - 6)).bind fun params_section =>
  (rslice m (m.length - 5) (m.length - 1)).bind fun crc =>
  let params := params_section.splitOn ';'
  let crc_response :=
    fmt05 req_id ++ [req_id_char] ++ ['-', '-', '-'] ++ fmtHex4 params_len
      ++ command.asStr ++ command_type.asStr
      ++ (List.intercalate [';'] params ++ [';'])
  let crc_is_valid : Bool := crc = calculateChecksum crc_response
  let command2 :=
    if command = .Dat then
      if params.length = 36 then Command.Dat0
      else if params.length = 11 then Command.Dat1
      else if params.length = 22 then Command.Dat2
      else if params.length = 1 then Command.DatReqResponse
      else Command.Dat
    else command
  (commandDataFromVec params command2).bind fun command_data =>
  (tryIntoU32 params_len).bind fun params_len32 =>
  .ok ⟨req_id, command2, command_type, params_len32, params, command_data,
    crc, crc_is_valid, false⟩

/-! ## Shared state (shared_struct.rs) and the Correlation Engine
(tcp_client.rs, `message_management_thread`) -/

/-- `SharedState` (shared_struct.rs:9). -/
structure SharedState where
  inf : INFData
  dat0 : DAT0Data
  dat1 : DAT1Data
  dat2 : DAT2Data
  deriving DecidableEq

/-- `SharedState::new` / `Default` (shared_struct.rs:26). -/
def SharedState.new : SharedState :=
  ⟨INFData.default, DAT0Data.default, DAT1Data.default, DAT2Data.default⟩

/-- The `match res.get_command_data()` state update (tcp_client.rs:250-264):
each variant overwrites its category via the `set_*` setters; the catch-all
arm (`DATReqResponse`) changes nothing. -/
def applyCommandData (st : SharedState) : CommandData → SharedState
  | .Inf d => { st with inf := d }
  | .Dat0 d => { st with dat0 := d }
  | .Dat1 d => { st with dat1 := d }
  | .Dat2 d => { st with dat2 := d }
  | .DATReqResponse _ => st

/-- First loop of the engine pass (tcp_client.rs:208-229): every Response
(deleted or not) is checked against the whole Request queue; with no
matching identifier it is marked deleted (orphan); with a matching deleted
Request only a warning is logged. -/
def orphanScan (reqs : List Request) (ress : List Response) : List Response :=
  ress.map fun res =>
    match reqs.find? (fun req => req.req_id = res.req_id) with
    | some _ => res
    | none => { res with marked_as_deleted := true }

/-- `Duration::as_secs` of an elapsed time in milliseconds. -/
def elapsedSecs (now t : Nat) : Nat := (now - t) / 1000

/-- Inner response scan for one Request (tcp_client.rs:243-271): iterate the
response queue in order, STOPPING at the first already-deleted Response
(`break`); on the first identifier match, apply the payload to shared state
when the checksum flag is valid, and mark both sides deleted. -/
def scanResponses (req : Request) (st : SharedState) :
    List Response → List Response × Request × SharedState
  | [] => ([], req, st)
  | res :: rest =>
    if res.marked_as_deleted then (res :: rest, req, st)
    else if req.req_id = res.req_id then
      let st2 := if res.crc_is_valid then applyCommandData st res.command_data else st
      ({ res with marked_as_deleted := true } :: rest,
       { req with marked_as_deleted := true }, st2)
    else
      (res :: (scanResponses req st rest).1, (scanResponses req st rest).2.1,
        (scanResponses req st rest).2.2)

/-- Body of the second loop for one Request (tcp_client.rs:230-271): skip
deleted Requests; mark a sent Request deleted on timeout
(`sent_at.unwrap().elapsed().as_secs() > 5` — note the `unwrap`, which
panics for a sent Request without a timestamp, and the truncation to whole
seconds); then scan the responses (the timed-out Request still scans). -/
def processOneRequest (now : Nat) (req : Request) (ress : List Response)
    (st : SharedState) : RustResult (Request × List Response × SharedState) :=
  if req.marked_as_deleted then .ok (req, ress, st)
  else
    (if req.sent then
      match req.sent_at with
      | none => RustResult.panicked
      | some t =>
        if elapsedSecs now t > 5 then .ok { req with marked_as_deleted := true }
        else .ok req
     else .ok req).bind fun req2 =>
    let out := scanResponses req2 st ress
    .ok (out.2.1, out.1, out.2.2)

/-- The second loop over the whole Request queue, threading the response
queue and shared state left to right. -/
def processRequests (now : Nat) :
    List Request → List Response → SharedState →
    RustResult (List Request × List Response × SharedState)
  | [], ress, st => .ok ([], ress, st)
  | req :: rest, ress, st =>
    (processOneRequest now req ress st).bind fun out =>
    (processRequests now rest out.2.1 out.2.2).bind fun outRest =>
    .ok (out.1 :: outRest.1, outRest.2.1, outRest.2.2)

/-- One full Correlation Engine pass (one iteration of
`message_management_thread`, before `clean_queues`). -/
def correlationPass (now : Nat) (reqs : List Request) (ress : List Response)
    (st : SharedState) :
    RustResult (List Request × List Response × SharedState) :=
  processRequests now reqs (orphanScan reqs ress) st

/-- `clean_queues` on the request queue (tcp_client.rs:425-426):
`retain(!marked_as_deleted)`. -/
def cleanRequests (reqs : List Request) : List Request :=
  reqs.filter fun req => !req.marked_as_deleted

/-- `clean_queues` on the response queue (tcp_client.rs:431-432). -/
def cleanResponses (ress : List Response) : List Response :=
  ress.filter fun res => !res.marked_as_deleted

/-- One full engine cycle: pass then compaction. -/
def correlationCycle (now : Nat) (reqs : List Request) (ress : List Response)
    (st : SharedState) :
    RustResult (List Request × List Response × SharedState) :=
  (correlationPass now reqs ress st).bind fun out =>
  .ok (cleanRequests out.1, cleanResponses out.2.1, out.2.2)

/-! ## Poller dedup and the id allocator (tcp_client.rs, http_api.rs) -/

/-- `already_existing_request` (tcp_client.rs:396): any not-deleted Request
with equal command, command-type and parameters (identifier ignored). -/
def alreadyExistingRequest (command : Command) (command_type : CommandType)
    (params : List Str) (reqs : List Request) : Bool :=
  reqs.any fun r =>
    !r.marked_as_deleted
      && decide (r.command = command)
      && decide (r.command_type = command_type)
      && decide (r.params = params)

/-- The `u32` increment-and-wrap of the shared id counter
(`*id_lock = (*id_lock + 1) % 100000`): `u32` addition wraps at `2^32`. -/
def nextCounter (c : Nat) : Nat := ((c + 1) % 4294967296) % 100000

/-- One standing-request step of `periodic_request_thread`
(tcp_client.rs:303-347): under the counter lock, skip entirely when an
equal (command, type, params) Request is pending, otherwise push a new
Request carrying the current counter value and advance the counter. -/
def pollerStep (command : Command) (command_type : CommandType)
    (params : List Str) (q : List Request) (c : Nat) : List Request × Nat :=
  if alreadyExistingRequest command command_type params q then (q, c)
  else (q ++ [Request.new c command command_type params], nextCounter c)

/-- One cycle of the Poller: the device-info read then the three data-page
reads, in source order. -/
def pollerCycle (q : List Request) (c : Nat) : List Request × Nat :=
  let s0 := pollerStep .Inf .Read [] q c
  let s1 := pollerStep .Dat .Read [['0']] s0.1 s0.2
  let s2 := pollerStep .Dat .Read [['1']] s1.1 s1.2
  pollerStep .Dat .Read [['2']] s2.1 s2.2

/-- `handle_request` (http_api.rs:598): allocate the current counter value
as the id, append one `DAT`/`Write` Request with parameters
`[action.to_string(), value.to_string()]` (no dedup), advance the counter,
and return the allocated id to the caller.  Lock failures are not modelled. -/
def handleRequest (q : List Request) (c : Nat) (action : Nat) (value : Str) :
    List Request × Nat × Nat :=
  let request_id := c
  let new_request := Request.new request_id .Dat .Write [fmtDec action, value]
  (q ++ [new_request], nextCounter c, request_id)

/-! ## Round-trip lemmas for the numeric fields -/

theorem parseDigitsAux_map (dv : Char → Option Nat) (base : Nat)
    (dig : Nat → Char) (hdv : ∀ d, d < base → dv (dig d) = some d) :
    ∀ (ds : List Nat) (acc : Nat), (∀ d ∈ ds, d < base) →
      parseDigitsAux dv base (ds.map dig) acc =
        some (ds.foldl (fun a d => a * base + d) acc) := by
  intro ds
  induction ds with
  | nil => intro acc _; rfl
  | cons d tl ih =>
    intro acc hds
    have hd : dv (dig d) = some d := hdv d (hds d (by simp))
    simp only [List.map_cons, parseDigitsAux, hd, List.foldl_cons]
    exact ih _ fun x hx => hds x (by simp [hx])

theorem foldr_eq_ofDigits (b : Nat) :
    ∀ l : List Nat, l.foldr (fun d a => a * b + d) 0 = Nat.ofDigits b l := by
  intro l
  induction l with
  | nil => simp [Nat.ofDigits_nil]
  | cons d tl ih =>
    simp only [List.foldr_cons, ih, Nat.ofDigits_cons]
    ring

theorem foldl_reverse_digits (b n : Nat) :
    ((Nat.digits b n).reverse).foldl (fun a d => a * b + d) 0 = Nat.ofDigits b (Nat.digits b n) := by
  rw [List.foldl_reverse]
  exact foldr_eq_ofDigits b (Nat.digits b n)

theorem parseDigitsAux_replicate_zero (dv : Char → Option Nat) (base : Nat)
    (h0 : dv '0' = some 0) :
    ∀ (k : Nat) (s : Str),
      parseDigitsAux dv base (List.replicate k '0' ++ s) 0 =
        parseDigitsAux dv base s 0 := by
  intro k
  induction k with
  | zero => intro s; rfl
  | succ m ih =>
    intro s
    simp only [List.replicate_succ, List.cons_append, parseDigitsAux, h0]
    simpa using ih s

theorem digits_length_le (b n k : Nat) (hb : 2 ≤ b) (h : n < b ^ k) :
    (Nat.digits b n).length ≤ k := by
  rcases Nat.eq_zero_or_pos n with rfl | hn
  · simp
  · by_contra hk
    push_neg at hk
    have h1 : b ^ (Nat.digits b n).length ≤ b * n :=
      Nat.base_pow_length_digits_le b n (by omega) (by omega)
    have h2 : b ^ (k + 1) ≤ b ^ (Nat.digits b n).length :=
      Nat.pow_le_pow_right (by omega) (by omega)
    have h3 : b * n < b * b ^ k := Nat.mul_lt_mul_of_pos_left h (by omega)
    have h4 : b * b ^ k = b ^ (k + 1) := by ring
    omega

theorem fmtBase_length_le (b : Nat) (dig : Nat → Char) (n k : Nat)
    (hb : 2 ≤ b) (hk : 1 ≤ k) (h : n < b ^ k) : (fmtBase b dig n).length ≤ k := by
  unfold fmtBase
  split
  · simpa using hk
  · rename_i hn
    have := digits_length_le b n k hb h
    simp [natDigits_eq_digits b n hb, this]

theorem padZeroLeft_length (w : Nat) (s : Str) (h : s.length ≤ w) :
    (padZeroLeft w s).length = w := by
  simp [padZeroLeft]
  omega

/-- The generic digit-string round trip: zero-padded minimal digits parse
back to the value. -/
theorem rustParseUnsigned_pad_fmtBase (dv : Char → Option Nat) (b : Nat)
    (dig : Nat → Char) (bound w n : Nat)
    (hb : 2 ≤ b)
    (hdv : ∀ d, d < b → dv (dig d) = some d)
    (hplus : ∀ d, d < b → dig d ≠ '+')
    (hzero : dig 0 = '0')
    (hn : n < bound) :
    rustParseUnsigned dv b bound (padZeroLeft w (fmtBase b dig n)) = some n := by
  have h0 : dv '0' = some 0 := by
    have := hdv 0 (by omega)
    rwa [hzero] at this
  have hdigs : ∀ d ∈ Nat.digits b n, d < b := fun d hd => Nat.digits_lt_base hb hd
  -- the padded string, as replicate ++ digit chars
  set core := fmtBase b dig n with hcore
  have hhead : ∀ c ∈ (List.replicate (w - core.length) '0' ++ core), c ≠ '+' := by
    intro c hc
    rcases List.mem_append.mp hc with hc | hc
    · have := List.eq_of_mem_replicate hc
      subst this
      decide
    · rw [hcore] at hc
      unfold fmtBase at hc
      split at hc
      · simp at hc
        subst hc
        decide
      · rw [natDigits_eq_digits b _ hb] at hc
        simp only [List.mem_map] at hc
        obtain ⟨d, hd, rfl⟩ := hc
        have hd2 : d < b := hdigs d (List.mem_reverse.mp hd)
        exact hplus d hd2
  have hne : (List.replicate (w - core.length) '0' ++ core) ≠ [] := by
    have : core ≠ [] := by
      rw [hcore]; unfold fmtBase
      split <;> simp [natDigits_eq_digits b _ hb]
      rename_i hn0
      simpa [Nat.digits_ne_nil_iff_ne_zero] using hn0
    simp [this]
  have hparse : parseDigitsAux dv b (List.replicate (w - core.length) '0' ++ core) 0 = some n := by
    rw [parseDigitsAux_replicate_zero dv b h0]
    rw [hcore]
    unfold fmtBase
    split
    · rename_i hn0
      subst hn0
      have h1 : ([('0' : Char)] : Str) = ([0].map dig) := by simp [hzero]
      rw [h1, parseDigitsAux_map dv b dig hdv [0] 0 (by intro d hd; simp at hd; omega)]
      simp
    · rw [natDigits_eq_digits b _ hb,
        parseDigitsAux_map dv b dig hdv _ 0 (by
          intro d hd
          exact hdigs d (List.mem_reverse.mp hd)),
        foldl_reverse_digits, Nat.ofDigits_digits]
  unfold rustParseUnsigned padZeroLeft
  simp only []
  have hh : (List.replicate (w - core.length) '0' ++ core).head? ≠ some '+' := by
    intro hcontra
    rcases hcon : (List.replicate (w - core.length) '0' ++ core) with _ | ⟨c, rest⟩
    · exact hne hcon
    · rw [hcon] at hcontra
      simp at hcontra
      have := hhead c (by rw [hcon]; simp)
      exact this hcontra
  rw [if_neg hh, if_neg hne, hparse]
  simp [hn]

theorem parseU32Dec_fmt05 (n : Nat) (h : n < 100000) :
    parseU32Dec (fmt05 n) = some n := by
  unfold parseU32Dec fmt05 fmtDec
  exact rustParseUnsigned_pad_fmtBase decDigitVal 10 decDigitChar _ 5 n
    (by omega)
    (by intro d hd; interval_cases d <;> decide)
    (by intro d hd; interval_cases d <;> decide)
    (by decide)
    (by omega)

theorem parseUsizeHex_fmtHex4 (n : Nat) (h : n < 65536) :
    parseUsizeHex (fmtHex4 n) = some n := by
  unfold parseUsizeHex fmtHex4 fmtHexUpper
  exact rustParseUnsigned_pad_fmtBase hexDigitVal 16 hexDigitCharUpper _ 4 n
    (by omega)
    (by intro d hd; interval_cases d <;> decide)
    (by intro d hd; interval_cases d <;> decide)
    (by decide)
    (by omega)

theorem fmt05_length (n : Nat) (h : n < 100000) : (fmt05 n).length = 5 := by
  unfold fmt05 fmtDec
  exact padZeroLeft_length 5 _ (fmtBase_length_le 10 decDigitChar n 5 (by omega) (by omega)
    (by norm_num at h ⊢; omega))

theorem fmtHex4_length (n : Nat) (h : n < 65536) : (fmtHex4 n).length = 4 := by
  unfold fmtHex4 fmtHexUpper
  exact padZeroLeft_length 4 _ (fmtBase_length_le 16 hexDigitCharUpper n 4 (by omega) (by omega)
    (by norm_num at h ⊢; omega))

/-! ## Frame-shape lemmas for the codec round trip -/

theorem crcRound_lt (c : Nat) : crcRound c < 65536 := by
  unfold crcRound
  split <;> exact Nat.lt_succ_of_le Nat.and_le_right

theorem crcByte_lt (c b : Nat) : crcByte c b < 65536 := by
  unfold crcByte crc8
  exact crcRound_lt _

theorem foldl_crc_lt (s : Str) (c : Nat) (hc : c < 65536) :
    s.foldl (fun c2 ch => crcByte c2 ch.toNat) c < 65536 := by
  induction s generalizing c with
  | nil => exact hc
  | cons ch rest ih => exact ih _ (crcByte_lt _ _)

theorem calculateChecksum_length (s : Str) : (calculateChecksum s).length = 4 :=
  fmtHex4_length _ (foldl_crc_lt s 65535 (by omega))

/-- Extract a middle segment of a concatenation by byte positions. -/
theorem rslice_exact {m : Str} (pre mid post : Str)
    (hm : m = pre ++ (mid ++ post)) (a b : Nat)
    (ha : a = pre.length) (hb : b = pre.length + mid.length) :
    rslice m a b = .ok mid := by
  subst hm ha hb
  unfold rslice
  have hcond : pre.length ≤ pre.length + mid.length ∧
      pre.length + mid.length ≤ (pre ++ (mid ++ post)).length := by
    constructor
    · omega
    · simp [List.length_append]
  rw [if_pos hcond]
  congr 1
  rw [List.drop_left, Nat.add_sub_cancel_left]
  exact List.take_left mid post

/-- The fixed-offset reads that `from_message` performs on a frame of the
encoder's shape. -/
theorem fromMessage_slices (m I M L C T P K : Str)
    (hm : m = ['#'] ++ I ++ M ++ L ++ C ++ T ++ (P ++ [';']) ++ K ++ ['\n'])
    (hI : I.length = 5) (hM : M.length = 4) (hL : L.length = 4)
    (hC : C.length = 3) (hT : T.length = 1) (hK : K.length = 4) :
    rslice m 1 6 = .ok I ∧ m[6]? = M[0]? ∧ rslice m 10 14 = .ok L ∧
    rslice m 14 17 = .ok C ∧ rslice m 17 18 = .ok T ∧
    rslice m 18 (m.length - 6) = .ok P ∧
    rslice m (m.length - 5) (m.length - 1) = .ok K := by
  have hmlen : m.length = P.length + 24 := by
    subst hm
    simp [List.length_append, hI, hM, hL, hC, hT, hK]
    omega
  refine ⟨?_, ?_, ?_, ?_, ?_, ?_, ?_⟩
  · exact rslice_exact ['#'] I (M ++ L ++ C ++ T ++ (P ++ [';']) ++ K ++ ['\n'])
      (by rw [hm]; simp [List.append_assoc]) 1 6 (by simp) (by simp [hI])
  · rw [show m = (['#'] ++ I) ++ (M ++ (L ++ C ++ T ++ (P ++ [';']) ++ K ++ ['\n']))
      from by rw [hm]; simp [List.append_assoc]]
    rw [List.getElem?_append_right (by simp [hI])]
    rw [show 6 - (['#'] ++ I).length = 0 from by simp [hI]]
    rcases M with _ | ⟨mc, mrest⟩
    · simp at hM
    · simp
  · exact rslice_exact (['#'] ++ I ++ M) L (C ++ T ++ (P ++ [';']) ++ K ++ ['\n'])
      (by rw [hm]; simp [List.append_assoc]) 10 14
      (by simp [hI, hM]) (by simp [hI, hM, hL])
  · exact rslice_exact (['#'] ++ I ++ M ++ L) C (T ++ (P ++ [';']) ++ K ++ ['\n'])
      (by rw [hm]; simp [List.append_assoc]) 14 17
      (by simp [hI, hM, hL]) (by simp [hI, hM, hL, hC])
  · exact rslice_exact (['#'] ++ I ++ M ++ L ++ C) T ((P ++ [';']) ++ K ++ ['\n'])
      (by rw [hm]; simp [List.append_assoc]) 17 18
      (by simp [hI, hM, hL, hC]) (by simp [hI, hM, hL, hC, hT])
  · exact rslice_exact (['#'] ++ I ++ M ++ L ++ C ++ T) P ([';'] ++ K ++ ['\n'])
      (by rw [hm]; simp [List.append_assoc]) 18 (m.length - 6)
      (by simp [hI, hM, hL, hC, hT])
      (by simp [hI, hM, hL, hC, hT, hmlen]; omega)
  · exact rslice_exact (['#'] ++ I ++ M ++ L ++ C ++ T ++ (P ++ [';'])) K ['\n']
      (by rw [hm]; simp [List.append_assoc]) (m.length - 5) (m.length - 1)
      (by simp [hI, hM, hL, hC, hT, hmlen]; omega)
      (by simp [hI, hM, hL, hC, hT, hK, hmlen]; omega)

/-! ## Claim C1: codec round trip (corrected) -/

/-- Claim C1, amended: for every request with identifier in [0, 100000),
command `INF`, any command-type, and exactly 3 parameters none containing
`';'` (parameter section below the 4-hex-digit limit), feeding the frame
produced by `build_message` to `from_message` with its trailing newline
RETAINED — which is what the reading thread actually does — yields a
Response whose checksum validates and whose identifier, command,
command-type and parameters equal the request's.  (Stripping the newline,
as the claim stated, shifts every trailing offset and breaks the round
trip; `DAT` requests are excluded because decoding re-specializes the
command, and the 4-character commands cannot round-trip through the
3-character command slice at all.) -/
theorem c1_roundtrip_amended (id : Nat) (ct : CommandType) (ps : List Str)
    (hid : id < 100000) (hlen3 : ps.length = 3)
    (hsemi : ∀ s ∈ ps, ';' ∉ s)
    (hsize : (List.intercalate [';'] ps).length + 1 < 65536) :
    ∃ resp,
      fromMessage ((Request.new id .Inf ct ps).buildMessage) = .ok resp ∧
      resp.crc_is_valid = true ∧ resp.req_id = id ∧
      resp.command = Command.Inf ∧ resp.command_type = ct ∧
      resp.params = ps := by
  have hTlen : ct.asStr.length = 1 := by cases ct <;> rfl
  have hctparse : CommandType.fromStr ct.asStr = .ok ct := by cases ct <;> rfl
  have hpstr : (List.intercalate [';'] ps ++ [';']).length =
      (List.intercalate [';'] ps).length + 1 := by simp
  have hmsg : (Request.new id .Inf ct ps).buildMessage =
      ['#'] ++ fmt05 id ++ ['C', '-', '-', '-']
        ++ fmtHex4 (List.intercalate [';'] ps ++ [';']).length
        ++ ['I', 'N', 'F'] ++ ct.asStr
        ++ (List.intercalate [';'] ps ++ [';'])
        ++ calculateChecksum
            (fmt05 id ++ ['C', '-', '-', '-']
              ++ fmtHex4 (List.intercalate [';'] ps ++ [';']).length
              ++ ['I', 'N', 'F'] ++ ct.asStr
              ++ (List.intercalate [';'] ps ++ [';']))
        ++ ['\n'] := rfl
  obtain ⟨hs1, hs6, hs10, hs14, hs17, hsP, hsK⟩ :=
    fromMessage_slices _ (fmt05 id) ['C', '-', '-', '-']
      (fmtHex4 (List.intercalate [';'] ps ++ [';']).length) ['I', 'N', 'F']
      ct.asStr (List.intercalate [';'] ps)
      (calculateChecksum
        (fmt05 id ++ ['C', '-', '-', '-']
          ++ fmtHex4 (List.intercalate [';'] ps ++ [';']).length
          ++ ['I', 'N', 'F'] ++ ct.asStr
          ++ (List.intercalate [';'] ps ++ [';'])))
      hmsg (fmt05_length id hid) rfl
      (fmtHex4_length _ (by rw [hpstr]; omega))
      rfl hTlen (calculateChecksum_length _)
  have hs6' : ((Request.new id .Inf ct ps).buildMessage)[6]? = some 'C' := by
    rw [hs6]
    rfl
  have hInf : Command.fromStr ['I', 'N', 'F'] = .ok Command.Inf := rfl
  have hsplit : (List.intercalate [';'] ps).splitOn ';' = ps :=
    List.splitOn_intercalate ps ';' hsemi
      (by intro hnil; rw [hnil] at hlen3; simp at hlen3)
  have hx2 : parseUsizeHex (fmtHex4 (List.intercalate [';'] ps ++ [';']).length) =
      some (List.intercalate [';'] ps ++ [';']).length :=
    parseUsizeHex_fmtHex4 _ (by rw [hpstr]; omega)
  have hrun : fromMessage ((Request.new id .Inf ct ps).buildMessage) =
      .ok ⟨id, Command.Inf, ct, (List.intercalate [';'] ps ++ [';']).length, ps,
        CommandData.Inf ⟨ps.getD 0 [], ps.getD 1 [], ps.getD 2 []⟩,
        calculateChecksum
          (fmt05 id ++ ['C', '-', '-', '-']
            ++ fmtHex4 (List.intercalate [';'] ps ++ [';']).length
            ++ ['I', 'N', 'F'] ++ ct.asStr
            ++ (List.intercalate [';'] ps ++ [';'])),
        true, false⟩ := by
    unfold fromMessage
    simp only [hs1, hs6', hs10, hs14, hs17, hsP, hsK,
      parseU32Dec_fmt05 id hid, hx2, hInf, hctparse, hsplit,
      RustResult.bind_ok_left, RustResult.ofOption_some]
    simp only [commandDataFromVec, INFData.fromSlice, hlen3, tryIntoU32,
      Command.asStr]
    norm_num
    simp only [if_neg (show ¬ (Command.Inf = Command.Dat) from by decide)]
    rw [if_pos (show (List.intercalate [';'] ps).length + 1 < 4294967296 from by omega)]
    simp [List.append_assoc]
  exact ⟨_, hrun, rfl, rfl, rfl, rfl, rfl⟩

/-- The concrete request of the C1 counterexample and witness. -/
def c1Req : Request := Request.new 1 .Inf .Read [['a'], ['b'], ['c']]

/-- Project the round-trip-relevant fields of a decode result. -/
def respSummary (x : RustResult Response) : RustResult (Bool × List Str) :=
  match x with
  | .ok r => .ok (r.crc_is_valid, r.params)
  | .err e => .err e
  | .panicked => .panicked

set_option maxRecDepth 4000 in
/-- Claim C1, counterexample: decoding the encoded frame after STRIPPING
the trailing newline (as the claim prescribes) does not round-trip: on
`c1Req` the mis-aligned offsets truncate the last parameter
(`["a","b",""]` instead of `["a","b","c"]`) and checksum validation fails.
Under the claim, the summary would have to be `.ok (true, params)`. -/
theorem c1_strip_newline_cex :
    c1Req.req_id < 100000 ∧
    respSummary (fromMessage (c1Req.buildMessage.dropLast)) =
      .ok (false, [['a'], ['b'], []]) ∧
    respSummary (fromMessage (c1Req.buildMessage.dropLast)) ≠
      .ok (true, c1Req.params) :=
  ⟨by decide, by decide, by decide⟩

set_option maxRecDepth 4000 in
/-- Witness for the amended C1 at a concrete request. -/
theorem c1_roundtrip_amended_witness :
    (1 < 100000 ∧ ([['a'], ['b'], ['c']] : List Str).length = 3) ∧
    (∃ resp,
      fromMessage ((Request.new 1 .Inf .Read [['a'], ['b'], ['c']]).buildMessage) =
        .ok resp ∧
      resp.crc_is_valid = true ∧ resp.req_id = 1 ∧
      resp.command = Command.Inf ∧ resp.command_type = CommandType.Read ∧
      resp.params = [['a'], ['b'], ['c']]) :=
  ⟨⟨by decide, by decide⟩,
   c1_roundtrip_amended 1 .Read [['a'], ['b'], ['c']] (by decide) (by decide)
     (by decide) (by decide)⟩

/-! ## Claim C3 (code_bug evidence) -/

/-- Claim C3: the claim states that `Response::from_message` is total on
arbitrary input and returns an error result on truncated frames such as
`"#12"`.  The code instead evaluates `&message[1..6]` on a 3-byte string,
which is an out-of-bounds byte-range index and panics; the panic escapes
`from_message` and is caught only at the thread boundary, terminating the
TCP reading loop.  This theorem evaluates the model at the failing input. -/
theorem c3_truncated_frame_panics :
    fromMessage ['#', '1', '2'] = RustResult.panicked := by rfl

/-! ## Claim C9: device-type bitmask decode -/

/-- Claim C9: whenever `DAT0Data::from_slice` succeeds on a payload whose
device-type field (element 4) parses to the raw value 499, the decoded
record has exactly `boiler_enabled = true`,
`domestic_hot_water_enabled = true`, `fan_number = 0`,
`temp_room1_enabled = temp_room2_enabled = temp_room3_enabled = true`,
`temp_water_enabled = true`, `pump_enabled = true`. -/
theorem c9_devicetype_bitmask (d : List Str) (r : DAT0Data)
    (h4 : parseU16Dec (d.getD 4 []) = some 499)
    (h : DAT0Data.fromSlice d = .ok r) :
    r.boiler_enabled = true ∧ r.domestic_hot_water_enabled = true ∧
    r.fan_number = 0 ∧ r.temp_room1_enabled = true ∧
    r.temp_room2_enabled = true ∧ r.temp_room3_enabled = true ∧
    r.temp_water_enabled = true ∧ r.pump_enabled = true := by
  unfold DAT0Data.fromSlice at h
  split at h
  · simp at h
  · rw [h4] at h
    simp only [pfield_some] at h
    repeat
      rw [pfield_eq_ok] at h
      obtain ⟨_, _, h⟩ := h
    cases h
    exact ⟨rfl, rfl, rfl, rfl, rfl, rfl, rfl, rfl⟩

/-- The 36-element payload used to witness C9: all fields `"0"` except the
device-type field `"499"`. -/
def c9Payload : List Str :=
  List.replicate 4 ['0'] ++ [['4', '9', '9']] ++ List.replicate 31 ['0']

/-- The record `DAT0Data::from_slice` produces on `c9Payload`. -/
def c9Decoded : DAT0Data :=
  ⟨0, 0, false, false, 499, .Off, false, false, 0,
   0, 0, 0, 0, 0, 0, 0, 0, 0, 0, 0, 0, 0,
   0, 0, 0, 0, 0, 0, 0, 0, 0, 0, 0, 0, 0, 0,
   true, true, 0, true, true, true, true, true⟩

/-- Witness for C9 at a concrete 36-element payload. -/
theorem c9_devicetype_bitmask_witness :
    parseU16Dec (c9Payload.getD 4 []) = some 499 ∧
    DAT0Data.fromSlice c9Payload = .ok c9Decoded ∧
    (c9Decoded.boiler_enabled = true ∧
     c9Decoded.domestic_hot_water_enabled = true ∧
     c9Decoded.fan_number = 0 ∧ c9Decoded.temp_room1_enabled = true ∧
     c9Decoded.temp_room2_enabled = true ∧ c9Decoded.temp_room3_enabled = true ∧
     c9Decoded.temp_water_enabled = true ∧ c9Decoded.pump_enabled = true) :=
  ⟨by decide, by decide,
   c9_devicetype_bitmask c9Payload c9Decoded (by decide) (by decide)⟩

/-! ## Claim C7: Poller dedup -/

theorem alreadyExisting_of_mem (command : Command) (command_type : CommandType)
    (params : List Str) (q : List Request)
    (h : ∃ r ∈ q, r.marked_as_deleted = false ∧ r.command = command ∧
      r.command_type = command_type ∧ r.params = params) :
    alreadyExistingRequest command command_type params q = true := by
  obtain ⟨r, hr, h1, h2, h3, h4⟩ := h
  unfold alreadyExistingRequest
  rw [List.any_eq_true]
  exact ⟨r, hr, by simp [h1, h2, h3, h4]⟩

/-- Claim C7: for each standing Poller request, when a not-yet-deleted
Request with equal (command, command-type, parameters) — identifier ignored
— is already queued, the corresponding Poller step enqueues nothing and
leaves both the queue and the shared id counter unchanged; consequently a
cycle in which all four standing requests are already pending is a no-op. -/
theorem c7_poller_dedup :
    (∀ (command : Command) (command_type : CommandType) (params : List Str)
        (q : List Request) (c : Nat),
      (∃ r ∈ q, r.marked_as_deleted = false ∧ r.command = command ∧
        r.command_type = command_type ∧ r.params = params) →
      pollerStep command command_type params q c = (q, c) ∧
        (pollerStep command command_type params q c).1.length = q.length ∧
        (pollerStep command command_type params q c).2 = c)
    ∧ (∀ (q : List Request) (c : Nat),
      (∃ r ∈ q, r.marked_as_deleted = false ∧ r.command = Command.Inf ∧
        r.command_type = CommandType.Read ∧ r.params = []) →
      (∃ r ∈ q, r.marked_as_deleted = false ∧ r.command = Command.Dat ∧
        r.command_type = CommandType.Read ∧ r.params = [['0']]) →
      (∃ r ∈ q, r.marked_as_deleted = false ∧ r.command = Command.Dat ∧
        r.command_type = CommandType.Read ∧ r.params = [['1']]) →
      (∃ r ∈ q, r.marked_as_deleted = false ∧ r.command = Command.Dat ∧
        r.command_type = CommandType.Read ∧ r.params = [['2']]) →
      pollerCycle q c = (q, c)) := by
  have step : ∀ (command : Command) (command_type : CommandType) (params : List Str)
      (q : List Request) (c : Nat),
      (∃ r ∈ q, r.marked_as_deleted = false ∧ r.command = command ∧
        r.command_type = command_type ∧ r.params = params) →
      pollerStep command command_type params q c = (q, c) := by
    intro command command_type params q c h
    unfold pollerStep
    rw [alreadyExisting_of_mem command command_type params q h]
    rfl
  refine ⟨fun command command_type params q c h => ⟨step _ _ _ _ _ h, ?_, ?_⟩,
    fun q c h0 h1 h2 h3 => ?_⟩
  · rw [step _ _ _ _ _ h]
  · rw [step _ _ _ _ _ h]
  · simp only [pollerCycle, step _ _ _ _ _ h0, step _ _ _ _ _ h1,
      step _ _ _ _ _ h2, step _ _ _ _ _ h3]

/-- A queue entry for the C7 witness: note its identifier (42) plays no role
in the dedup decision. -/
def c7Queued : Request := Request.new 42 .Inf .Read []

/-- Witness for C7 at a concrete queue. -/
theorem c7_poller_dedup_witness :
    pollerStep Command.Inf CommandType.Read [] [c7Queued] 7 = ([c7Queued], 7) :=
  (c7_poller_dedup.1 Command.Inf CommandType.Read [] [c7Queued] 7
    ⟨c7Queued, by decide, by decide, by decide, by decide⟩).1

/-! ## Claim C8: external submit -/

/-- Claim C8: `handle_request` appends exactly one Request whose identifier
is the counter's current value, returns that identifier, and advances the
counter by increment-and-wrap into [0, 100000); no dedup is applied (the
append is unconditional), and a Poller allocation advances the counter by
the same rule (`nextCounter`) whenever it allocates at all. -/
theorem c8_submit_allocates :
    ∀ (q : List Request) (c : Nat) (action : Nat) (value : Str),
      (handleRequest q c action value).1 =
        q ++ [Request.new c .Dat .Write [fmtDec action, value]] ∧
      (handleRequest q c action value).1.length = q.length + 1 ∧
      (handleRequest q c action value).2.2 = c ∧
      (handleRequest q c action value).2.1 < 100000 ∧
      (c < 100000 → (handleRequest q c action value).2.1 = (c + 1) % 100000) ∧
      (∀ (command : Command) (command_type : CommandType) (params : List Str),
        (pollerStep command command_type params q c).2 = c ∨
        (pollerStep command command_type params q c).2 =
          (handleRequest q c action value).2.1) := by
  intro q c action value
  refine ⟨rfl, by simp [handleRequest], rfl, ?_, ?_, ?_⟩
  · exact Nat.mod_lt _ (by omega)
  · intro hc
    show nextCounter c = (c + 1) % 100000
    unfold nextCounter
    have hinner : (c + 1) % 4294967296 = c + 1 := Nat.mod_eq_of_lt (by omega)
    rw [hinner]
  · intro command command_type params
    unfold pollerStep
    by_cases hex : alreadyExistingRequest command command_type params q = true
    · rw [hex]
      exact Or.inl rfl
    · simp only [Bool.not_eq_true] at hex
      rw [hex]
      exact Or.inr rfl

/-! ## Claim C6: command re-specialization by parameter count -/

theorem tryIntoU32_eq_ok {n v : Nat} :
    tryIntoU32 n = .ok v ↔ n < 4294967296 ∧ v = n := by
  unfold tryIntoU32
  split
  · rename_i hlt
    constructor
    · intro h
      cases h
      exact ⟨hlt, rfl⟩
    · rintro ⟨-, rfl⟩
      rfl
  · rename_i hlt
    constructor
    · intro h
      cases h
    · rintro ⟨h, -⟩
      exact absurd h hlt

/-- A generic-data frame with 2 parameters:
`"#00002C---0004DATR1;2;0000\n"`. -/
def c6BadFrame : Str :=
  ['#', '0', '0', '0', '0', '2', 'C', '-', '-', '-', '0', '0', '0', '4',
   'D', 'A', 'T', 'R', '1', ';', '2', ';', '0', '0', '0', '0', '\n']

/-- Claim C6: whenever `from_message` succeeds on a frame whose command
slice reads `DAT`, the decoded Response has been re-specialized by
parameter count — exactly 36 parameters give page 0, 11 give page 1, 22
give page 2 and 1 gives the request acknowledgement — and a generic-data
frame with any other parameter count (here: 2) fails to decode with the
not-implemented error, so no Response is produced. -/
theorem c6_respecialization :
    (∀ (m : Str) (r : Response),
      fromMessage m = .ok r → (m.drop 14).take 3 = ['D', 'A', 'T'] →
      (r.params.length = 36 ∧ r.command = Command.Dat0) ∨
      (r.params.length = 11 ∧ r.command = Command.Dat1) ∨
      (r.params.length = 22 ∧ r.command = Command.Dat2) ∨
      (r.params.length = 1 ∧ r.command = Command.DatReqResponse))
    ∧ fromMessage c6BadFrame = .err .notImplemented := by
  constructor
  · intro m r h hdat
    unfold fromMessage at h
    simp only [RustResult.bind_eq_ok, RustResult.ofOption_eq_ok,
      RustResult.ok.injEq] at h
    obtain ⟨idS, hidS, rid, hrid, ch6, hch6, lenS, hlenS, plen, hplen, cmdS,
      hcmdS, cmd, hcmd, ctS, hctS, ct2, hct2, sec, hsec, crc2, hcrc2, cd, hcd,
      pl32, hpl32, hr⟩ := h
    obtain ⟨-, -, hcmdS_eq⟩ := rslice_eq_ok.mp hcmdS
    norm_num at hcmdS_eq
    rw [hdat] at hcmdS_eq
    subst hcmdS_eq
    have hfromstr : Command.fromStr ['D', 'A', 'T'] = .ok Command.Dat := rfl
    rw [hfromstr] at hcmd
    cases hcmd
    subst hr
    simp only []
    by_cases h36 : (sec.splitOn ';').length = 36
    · exact Or.inl ⟨h36, by simp [h36]⟩
    · by_cases h11 : (sec.splitOn ';').length = 11
      · exact Or.inr (Or.inl ⟨h11, by simp [h36, h11]⟩)
      · by_cases h22 : (sec.splitOn ';').length = 22
        · exact Or.inr (Or.inr (Or.inl ⟨h22, by simp [h36, h11, h22]⟩))
        · by_cases h1 : (sec.splitOn ';').length = 1
          · exact Or.inr (Or.inr (Or.inr ⟨h1, by simp [h36, h11, h22, h1]⟩))
          · exfalso
            simp only [if_pos rfl, h36, h11, h22, h1, if_false,
              if_neg] at hcd
            simp [commandDataFromVec] at hcd
  · decide

/-- A well-formed generic-data frame with a single parameter:
`build_message` of a `DAT`/`Read` request with parameter `"x"`. -/
def c6Frame : Str := (Request.new 5 .Dat .Read [['x']]).buildMessage

/-- The Response `from_message` produces on `c6Frame`: re-specialized to
the request acknowledgement. -/
def c6Decoded : Response :=
  ⟨5, .DatReqResponse, .Read, 2, [['x']], .DATReqResponse ⟨['x']⟩,
   ['0', '7', 'D', '7'], true, false⟩

set_option maxRecDepth 4000 in
/-- Witness for C6 at a concrete 1-parameter generic-data frame. -/
theorem c6_respecialization_witness :
    (c6Frame.drop 14).take 3 = ['D', 'A', 'T'] ∧
    ((c6Decoded.params.length = 36 ∧ c6Decoded.command = Command.Dat0) ∨
     (c6Decoded.params.length = 11 ∧ c6Decoded.command = Command.Dat1) ∨
     (c6Decoded.params.length = 22 ∧ c6Decoded.command = Command.Dat2) ∨
     (c6Decoded.params.length = 1 ∧ c6Decoded.command = Command.DatReqResponse)) :=
  ⟨by decide, c6_respecialization.1 c6Frame c6Decoded (by decide) (by decide)⟩

/-! ## Claim C10: the length field does not influence the decoded fields -/

theorem rslice_congr {m1 m2 : Str} (a b : Nat)
    (hlen : m1.length = m2.length)
    (hag : ∀ i, a ≤ i → i < b → m1[i]? = m2[i]?) :
    rslice m1 a b = rslice m2 a b := by
  unfold rslice
  rw [hlen]
  split
  · congr 1
    apply List.ext_getElem?
    intro j
    rw [List.getElem?_take, List.getElem?_take]
    split
    · rename_i hj
      rw [List.getElem?_drop, List.getElem?_drop]
      exact hag (a + j) (by omega) (by omega)
    · rfl
  · rfl

/-- Claim C10 (implicit): `from_message` never checks the declared hex
length field (chars 10..14) against the actual parameter-section length.
Two successfully decoded frames of equal length that agree at every
position outside 10..13 yield Responses with identical identifier, command,
command-type, parameters, and even an identical stored checksum string —
the length field can influence only the reconstructed checksum and hence
only the checksum-validity flag (and the stored `params_len` itself). -/
theorem c10_length_field_noninterference (m1 m2 : Str) (r1 r2 : Response)
    (hlen : m1.length = m2.length)
    (hag : ∀ i, i < m1.length → i < 10 ∨ 14 ≤ i → m1[i]? = m2[i]?)
    (h1 : fromMessage m1 = .ok r1) (h2 : fromMessage m2 = .ok r2) :
    r1.req_id = r2.req_id ∧ r1.command = r2.command ∧
    r1.command_type = r2.command_type ∧ r1.params = r2.params ∧
    r1.crc = r2.crc := by
  have hag2 : ∀ i, i < 10 ∨ 14 ≤ i → m1[i]? = m2[i]? := by
    intro i hi
    by_cases hlt : i < m1.length
    · exact hag i hlt hi
    · rw [List.getElem?_eq_none (by omega), List.getElem?_eq_none (by omega)]
  unfold fromMessage at h1 h2
  simp only [RustResult.bind_eq_ok, RustResult.ofOption_eq_ok,
    RustResult.ok.injEq] at h1 h2
  obtain ⟨idSa, hidSa, rida, hrida, cha, hcha, lenSa, hlenSa, plena, hplena,
    cmdSa, hcmdSa, cmda, hcmda, ctSa, hctSa, cta, hcta, seca, hseca, crca,
    hcrca, cda, hcda, pla, hpla, hra⟩ := h1
  obtain ⟨idSb, hidSb, ridb, hridb, chb, hchb, lenSb, hlenSb, plenb, hplenb,
    cmdSb, hcmdSb, cmdb, hcmdb, ctSb, hctSb, ctb, hctb, secb, hsecb, crcb,
    hcrcb, cdb, hcdb, plb, hplb, hrb⟩ := h2
  have h18 : 18 ≤ m1.length - 6 := (rslice_eq_ok.mp hseca).1
  have hlen24 : 24 ≤ m1.length := by omega
  rw [← hlen] at hsecb hcrcb
  have eid : idSa = idSb := by
    have hc := rslice_congr 1 6 hlen (fun i hi1 hi2 => hag2 i (Or.inl (by omega)))
    rw [hidSa, hidSb] at hc
    cases hc
    rfl
  have ecmdS : cmdSa = cmdSb := by
    have hc := rslice_congr 14 17 hlen (fun i hi1 hi2 => hag2 i (Or.inr (by omega)))
    rw [hcmdSa, hcmdSb] at hc
    cases hc
    rfl
  have ectS : ctSa = ctSb := by
    have hc := rslice_congr 17 18 hlen (fun i hi1 hi2 => hag2 i (Or.inr (by omega)))
    rw [hctSa, hctSb] at hc
    cases hc
    rfl
  have esec : seca = secb := by
    have hc := rslice_congr 18 (m1.length - 6) hlen
      (fun i hi1 hi2 => hag2 i (Or.inr (by omega)))
    rw [hseca, hsecb] at hc
    cases hc
    rfl
  have ecrc : crca = crcb := by
    have hc := rslice_congr (m1.length - 5) (m1.length - 1) hlen
      (fun i hi1 hi2 => hag2 i (Or.inr (by omega)))
    rw [hcrca, hcrcb] at hc
    cases hc
    rfl
  have erid : rida = ridb := by
    rw [eid] at hrida
    rw [hrida] at hridb
    exact (Option.some.injEq _ _).mp hridb
  have ecmd : cmda = cmdb := by
    rw [ecmdS] at hcmda
    rw [hcmda] at hcmdb
    cases hcmdb
    rfl
  have ect : cta = ctb := by
    rw [ectS] at hcta
    rw [hcta] at hctb
    cases hctb
    rfl
  subst hra hrb
  refine ⟨erid, ?_, ect, ?_, ecrc⟩
  · show (if cmda = Command.Dat then _ else cmda) = (if cmdb = Command.Dat then _ else cmdb)
    simp only [ecmd, esec]
  · show seca.splitOn ';' = secb.splitOn ';'
    rw [esec]

/-- First C10 witness frame: length field `0006`, checksum field `0000`. -/
def c10FrameA : Str :=
  ['#', '0', '0', '0', '0', '1', 'C', '-', '-', '-', '0', '0', '0', '6',
   'I', 'N', 'F', 'R', 'a', ';', 'b', ';', 'c', ';', '0', '0', '0', '0', '\n']

/-- Second C10 witness frame: identical except the length field is `0007`. -/
def c10FrameB : Str :=
  ['#', '0', '0', '0', '0', '1', 'C', '-', '-', '-', '0', '0', '0', '7',
   'I', 'N', 'F', 'R', 'a', ';', 'b', ';', 'c', ';', '0', '0', '0', '0', '\n']

/-- Decode of `c10FrameA`. -/
def c10DecodedA : Response :=
  ⟨1, .Inf, .Read, 6, [['a'], ['b'], ['c']], .Inf ⟨['a'], ['b'], ['c']⟩,
   ['0', '0', '0', '0'], false, false⟩

/-- Decode of `c10FrameB`: only `params_len` differs. -/
def c10DecodedB : Response :=
  ⟨1, .Inf, .Read, 7, [['a'], ['b'], ['c']], .Inf ⟨['a'], ['b'], ['c']⟩,
   ['0', '0', '0', '0'], false, false⟩

set_option maxRecDepth 4000 in
/-- Witness for C10 at two concrete frames differing only in the length
field. -/
theorem c10_length_field_noninterference_witness :
    c10DecodedA.req_id = c10DecodedB.req_id ∧
    c10DecodedA.command = c10DecodedB.command ∧
    c10DecodedA.command_type = c10DecodedB.command_type ∧
    c10DecodedA.params = c10DecodedB.params ∧
    c10DecodedA.crc = c10DecodedB.crc :=
  c10_length_field_noninterference c10FrameA c10FrameB c10DecodedA c10DecodedB
    (by decide) (by decide) (by decide) (by decide)

/-! ## Correlation Engine lemmas (shared by C2, C4, C5) -/

theorem scanResponses_first_match (req : Request) (st : SharedState)
    (post : List Response) (res : Response)
    (hres : res.marked_as_deleted = false) (hid : req.req_id = res.req_id) :
    ∀ pre : List Response,
      (∀ x ∈ pre, x.marked_as_deleted = false ∧ x.req_id ≠ req.req_id) →
      scanResponses req st (pre ++ res :: post) =
        (pre ++ { res with marked_as_deleted := true } :: post,
         { req with marked_as_deleted := true },
         if res.crc_is_valid then applyCommandData st res.command_data else st) := by
  intro pre
  induction pre with
  | nil =>
    intro _
    simp [scanResponses, hres, hid]
  | cons x xs ih =>
    intro hpre
    have hx := hpre x (by simp)
    have hxs : ∀ y ∈ xs, y.marked_as_deleted = false ∧ y.req_id ≠ req.req_id :=
      fun y hy => hpre y (by simp [hy])
    have hne : ¬ req.req_id = x.req_id := fun hcontra => hx.2 hcontra.symm
    have hrec := ih hxs
    rw [List.cons_append, scanResponses, if_neg (by simp [hx.1]), if_neg hne, hrec]
    rfl

theorem scanResponses_marked (st : SharedState) :
    ∀ (ress : List Response) (req : Request), req.marked_as_deleted = true →
      ((scanResponses req st ress).2.1).marked_as_deleted = true := by
  intro ress
  induction ress with
  | nil =>
    intro req h
    exact h
  | cons res rest ih =>
    intro req h
    unfold scanResponses
    by_cases h1 : res.marked_as_deleted
    · simp [h1, h]
    · by_cases h2 : req.req_id = res.req_id
      · simp [h1, h2]
      · simp only [h1, h2, if_neg, if_false, Bool.false_eq_true]
        simpa using ih req h

theorem processRequests_append (now : Nat) :
    ∀ (l1 l2 : List Request) (ress : List Response) (st : SharedState),
      processRequests now (l1 ++ l2) ress st =
        (processRequests now l1 ress st).bind fun o =>
        (processRequests now l2 o.2.1 o.2.2).bind fun o2 =>
        .ok (o.1 ++ o2.1, o2.2.1, o2.2.2) := by
  intro l1
  induction l1 with
  | nil =>
    intro l2 ress st
    simp only [List.nil_append, processRequests, RustResult.bind_ok_left]
    cases processRequests now l2 ress st <;> simp [RustResult.bind]
  | cons r rs ih =>
    intro l2 ress st
    rw [List.cons_append, processRequests, processRequests]
    cases hr : processOneRequest now r ress st with
    | ok o =>
      rw [RustResult.bind_ok_left, RustResult.bind_ok_left, ih]
      cases h1 : processRequests now rs o.2.1 o.2.2 with
      | ok o1 =>
        rw [RustResult.bind_ok_left, RustResult.bind_ok_left, RustResult.bind_ok_left]
        cases h2 : processRequests now l2 o1.2.1 o1.2.2 with
        | ok o2 => simp [RustResult.bind]
        | err e => rfl
        | panicked => rfl
      | err e => rfl
      | panicked => rfl
    | err e => rfl
    | panicked => rfl

theorem processOneRequest_ok (now : Nat) (req : Request) (ress : List Response)
    (st : SharedState) (hwf : req.sent = true → req.sent_at.isSome) :
    ∃ o, processOneRequest now req ress st = .ok o := by
  by_cases hdel : req.marked_as_deleted
  · exact ⟨(req, ress, st), by simp [processOneRequest, hdel]⟩
  · by_cases hs : req.sent
    · obtain ⟨t, ht⟩ := Option.isSome_iff_exists.mp (hwf hs)
      by_cases htime : elapsedSecs now t > 5
      · exact ⟨((scanResponses { req with marked_as_deleted := true } st ress).2.1,
          (scanResponses { req with marked_as_deleted := true } st ress).1,
          (scanResponses { req with marked_as_deleted := true } st ress).2.2),
          by simp [processOneRequest, hdel, hs, ht, htime]⟩
      · exact ⟨((scanResponses req st ress).2.1, (scanResponses req st ress).1,
          (scanResponses req st ress).2.2),
          by simp [processOneRequest, hdel, hs, ht, htime]⟩
    · exact ⟨((scanResponses req st ress).2.1, (scanResponses req st ress).1,
        (scanResponses req st ress).2.2),
        by simp [processOneRequest, hdel, hs]⟩

theorem processRequests_ok_length (now : Nat) :
    ∀ (l : List Request) (ress : List Response) (st : SharedState),
      (∀ x ∈ l, x.sent = true → x.sent_at.isSome) →
      ∃ o, processRequests now l ress st = .ok o ∧ o.1.length = l.length := by
  intro l
  induction l with
  | nil =>
    intro ress st _
    exact ⟨([], ress, st), rfl, rfl⟩
  | cons r rs ih =>
    intro ress st hwf
    obtain ⟨o, ho⟩ := processOneRequest_ok now r ress st (hwf r (by simp))
    obtain ⟨o2, ho2, hlen⟩ := ih o.2.1 o.2.2 (fun x hx => hwf x (by simp [hx]))
    refine ⟨(o.1 :: o2.1, o2.2.1, o2.2.2), ?_, by simp [hlen]⟩
    simp [processRequests, ho, ho2, RustResult.bind]

/-- The engine's handling of one pending, not-timed-out Request whose first
identifier match in the response queue is not preceded by any
already-deleted Response: the Request is matched to that Response, the
payload is applied exactly when the checksum flag is valid, and both sides
are marked deleted. -/
theorem processOne_first_match (now : Nat) (st : SharedState) (req : Request)
    (pre post : List Response) (res : Response)
    (hdel : req.marked_as_deleted = false)
    (hnot : req.sent = true → ∃ t, req.sent_at = some t ∧ elapsedSecs now t ≤ 5)
    (hpre : ∀ x ∈ pre, x.marked_as_deleted = false ∧ x.req_id ≠ req.req_id)
    (hres : res.marked_as_deleted = false)
    (hid : req.req_id = res.req_id) :
    processOneRequest now req (pre ++ res :: post) st =
      .ok ({ req with marked_as_deleted := true },
        pre ++ { res with marked_as_deleted := true } :: post,
        if res.crc_is_valid then applyCommandData st res.command_data else st) := by
  have hscan := scanResponses_first_match req st post res hres hid pre hpre
  by_cases hs : req.sent
  · obtain ⟨t, hat, hle⟩ := hnot hs
    have hnt : ¬ elapsedSecs now t > 5 := by omega
    simp [processOneRequest, hdel, hs, hat, hnt, hscan]
  · simp [processOneRequest, hdel, hs, hscan]

/-! ## Claim C2: first-match correlation (corrected) -/

/-- The concrete pending Request used in the C2/C4/C5 scenarios:
identifier 1, sent at time 0. -/
def c2Req : Request := ⟨1, .Inf, .Read, [], true, some 0, false⟩

/-- A Response with no matching Request (identifier 0): the orphan scan of
the same pass marks it deleted. -/
def c2Orphan : Response :=
  ⟨0, .DatReqResponse, .Read, 1, [['0']], .DATReqResponse ⟨['0']⟩,
   ['0', '0', '0', '0'], true, false⟩

/-- A checksum-valid Response matching `c2Req` (identifier 1). -/
def c2Match : Response :=
  ⟨1, .Inf, .Read, 6, [['h'], ['v'], ['s']], .Inf ⟨['h'], ['v'], ['s']⟩,
   ['0', '0', '0', '0'], true, false⟩

/-- A not-deleted, non-matching Response (identifier 7) placed ahead of the
match in the witness scenario. -/
def c2Ahead : Response :=
  ⟨7, .DatReqResponse, .Read, 1, [['1']], .DATReqResponse ⟨['1']⟩,
   ['0', '0', '0', '0'], true, false⟩

/-- Claim C2, counterexample: with request queue `[c2Req]` (pending, not
timed out at `now = 0`) and response queue `[c2Orphan, c2Match]`, the
not-deleted checksum-valid Response `c2Match` matches `c2Req` by
identifier, yet the cycle deletes neither side and leaves the shared state
untouched: the orphan scan marks `c2Orphan` deleted, and the per-request
response scan then stops (`break`) at that deleted entry before reaching
`c2Match`.  This refutes the claim's "regardless of the positions of
already-deleted Responses earlier in the response queue". -/
theorem c2_deleted_break_cex :
    (c2Match.req_id = c2Req.req_id ∧ c2Match.marked_as_deleted = false ∧
     c2Match.crc_is_valid = true ∧ c2Req.marked_as_deleted = false ∧
     c2Req.sent = true ∧ c2Req.sent_at = some 0 ∧ elapsedSecs 0 0 ≤ 5) ∧
    correlationCycle 0 [c2Req] [c2Orphan, c2Match] SharedState.new =
      .ok ([c2Req], [c2Match], SharedState.new) ∧
    c2Req.marked_as_deleted = false ∧ c2Match.marked_as_deleted = false :=
  ⟨by decide, by decide, by decide, by decide⟩

/-- Claim C2, amended: the Request is matched to the first Response with an
equal identifier provided no already-deleted Response precedes that match
in the response queue (the scan stops at the first deleted entry); on such
a match, a checksum-valid payload overwrites the corresponding category
(`applyCommandData`; the acknowledgement variant changes nothing) and both
sides are marked deleted regardless of checksum validity. -/
theorem c2_first_match_amended (now : Nat) (st : SharedState) (req : Request)
    (pre post : List Response) (res : Response)
    (hdel : req.marked_as_deleted = false)
    (hnot : req.sent = true → ∃ t, req.sent_at = some t ∧ elapsedSecs now t ≤ 5)
    (hpre : ∀ x ∈ pre, x.marked_as_deleted = false ∧ x.req_id ≠ req.req_id)
    (hres : res.marked_as_deleted = false)
    (hid : req.req_id = res.req_id) :
    processOneRequest now req (pre ++ res :: post) st =
      .ok ({ req with marked_as_deleted := true },
        pre ++ { res with marked_as_deleted := true } :: post,
        if res.crc_is_valid then applyCommandData st res.command_data else st) :=
  processOne_first_match now st req pre post res hdel hnot hpre hres hid

/-- Witness for the amended C2 with a non-empty prefix of live, non-matching
responses. -/
theorem c2_first_match_amended_witness :
    processOneRequest 0 c2Req [c2Ahead, c2Match] SharedState.new =
      .ok ({ c2Req with marked_as_deleted := true },
        [c2Ahead, { c2Match with marked_as_deleted := true }],
        if c2Match.crc_is_valid
          then applyCommandData SharedState.new c2Match.command_data
          else SharedState.new) :=
  c2_first_match_amended 0 SharedState.new c2Req [c2Ahead] [] c2Match
    (by decide)
    (fun _ => ⟨0, rfl, by decide⟩)
    (by intro x hx; simp at hx; subst hx; exact ⟨by decide, by decide⟩)
    (by decide) (by decide)

/-! ## Claim C4: checksum-invalid responses never touch shared state -/

/-- Claim C4: when the Response matched to a pending Request has
`crc_is_valid = false`, both sides are marked deleted but the shared
device-state record is returned unchanged — every category is left as it
was. -/
theorem c4_invalid_crc_no_state_change (now : Nat) (st : SharedState)
    (req : Request) (pre post : List Response) (res : Response)
    (hdel : req.marked_as_deleted = false)
    (hnot : req.sent = true → ∃ t, req.sent_at = some t ∧ elapsedSecs now t ≤ 5)
    (hpre : ∀ x ∈ pre, x.marked_as_deleted = false ∧ x.req_id ≠ req.req_id)
    (hres : res.marked_as_deleted = false)
    (hid : req.req_id = res.req_id)
    (hcrc : res.crc_is_valid = false) :
    processOneRequest now req (pre ++ res :: post) st =
      .ok ({ req with marked_as_deleted := true },
        pre ++ { res with marked_as_deleted := true } :: post, st) := by
  have h := processOne_first_match now st req pre post res hdel hnot hpre hres hid
  rw [hcrc] at h ⊢
  simpa using h

/-- The checksum-invalid counterpart of `c2Match`. -/
def c4Match : Response := { c2Match with crc_is_valid := false }

/-- Witness for C4. -/
theorem c4_invalid_crc_no_state_change_witness :
    processOneRequest 0 c2Req [c4Match] SharedState.new =
      .ok ({ c2Req with marked_as_deleted := true },
        [{ c4Match with marked_as_deleted := true }], SharedState.new) :=
  c4_invalid_crc_no_state_change 0 SharedState.new c2Req [] [] c4Match
    (by decide)
    (fun _ => ⟨0, rfl, by decide⟩)
    (by intro x hx; cases hx)
    (by decide) (by decide) (by decide)

/-! ## Claim C5: timeout eviction (corrected) -/

/-- Claim C5, counterexample: a Request sent 5.5 (simulated) seconds ago —
strictly more than 5 seconds — is NOT marked deleted by the next cycle and
survives compaction, because the code compares `elapsed().as_secs() > 5`
and the truncation `5500 ms / 1000 = 5` fails the strict test. -/
theorem c5_fractional_timeout_cex :
    (c2Req.sent = true ∧ c2Req.sent_at = some 0 ∧ 5000 < 5500 - 0) ∧
    correlationCycle 5500 [c2Req] [] SharedState.new =
      .ok ([c2Req], [], SharedState.new) ∧
    c2Req.marked_as_deleted = false :=
  ⟨by decide, by decide, by decide⟩

/-- Claim C5, amended: a sent Request is evicted when strictly more than 5
whole seconds have elapsed (`elapsed.as_secs() > 5`, i.e. at least 6
seconds; fractional excesses such as 5.5 s do not trigger it): the next
pass marks it deleted and compaction removes it. -/
theorem c5_timeout_eviction_amended (now : Nat) (st : SharedState)
    (pre post : List Request) (req : Request) (ress : List Response) (t : Nat)
    (hdel : req.marked_as_deleted = false)
    (hsent : req.sent = true) (hat : req.sent_at = some t)
    (htime : 5 < elapsedSecs now t)
    (hwf1 : ∀ x ∈ pre, x.sent = true → x.sent_at.isSome)
    (hwf2 : ∀ x ∈ post, x.sent = true → x.sent_at.isSome) :
    (∃ out, correlationPass now (pre ++ req :: post) ress st = .ok out) ∧
    (∀ reqs2 ress2 st2,
      correlationPass now (pre ++ req :: post) ress st = .ok (reqs2, ress2, st2) →
      reqs2[pre.length]?.map Request.marked_as_deleted = some true ∧
      ∀ r2, reqs2[pre.length]? = some r2 → r2 ∉ cleanRequests reqs2) := by
  obtain ⟨rid, rcmd, rct, rps, rsent, rsat, rdel⟩ := req
  dsimp only at hdel hsent hat
  subst hdel hsent hat
  have hbig : ∃ reqs2 ress2 st2,
      correlationPass now
          (pre ++ (⟨rid, rcmd, rct, rps, true, some t, false⟩ : Request) :: post)
          ress st = .ok (reqs2, ress2, st2) ∧
      reqs2[pre.length]?.map Request.marked_as_deleted = some true := by
    unfold correlationPass
    set ress0 := orphanScan
      (pre ++ (⟨rid, rcmd, rct, rps, true, some t, false⟩ : Request) :: post) ress
      with hress0
    obtain ⟨o1, ho1, hlen1⟩ := processRequests_ok_length now pre ress0 st hwf1
    rw [processRequests_append now pre _ ress0 st, ho1, RustResult.bind_ok_left]
    set req2 : Request := ⟨rid, rcmd, rct, rps, true, some t, true⟩ with hreq2
    have hone : processOneRequest now
        (⟨rid, rcmd, rct, rps, true, some t, false⟩ : Request) o1.2.1 o1.2.2 =
        .ok ((scanResponses req2 o1.2.2 o1.2.1).2.1,
          (scanResponses req2 o1.2.2 o1.2.1).1,
          (scanResponses req2 o1.2.2 o1.2.1).2.2) := by
      simp [processOneRequest, htime, hreq2]
    obtain ⟨o2, ho2, hlen2⟩ := processRequests_ok_length now post
      (scanResponses req2 o1.2.2 o1.2.1).1 (scanResponses req2 o1.2.2 o1.2.1).2.2 hwf2
    simp only [processRequests, hone, RustResult.bind_ok_left, ho2]
    refine ⟨_, _, _, rfl, ?_⟩
    have hmark : ((scanResponses req2 o1.2.2 o1.2.1).2.1).marked_as_deleted = true :=
      scanResponses_marked o1.2.2 o1.2.1 req2 (by rw [hreq2])
    rw [List.getElem?_append_right (by omega)]
    simp [hlen1, hmark]
  obtain ⟨reqs2, ress2, st2, hrun, hmark⟩ := hbig
  refine ⟨⟨_, hrun⟩, ?_⟩
  intro reqs2b ress2b st2b hrunb
  rw [hrun] at hrunb
  cases hrunb
  refine ⟨hmark, ?_⟩
  intro r2 hr2 hmem
  rw [hr2] at hmark
  simp only [Option.map_some', Option.some.injEq] at hmark
  have := (List.mem_filter.mp hmem).2
  simp [hmark] at this

/-- A sent Request (identifier 9) used as padding in the C5 witness. -/
def c5Other : Request := ⟨9, .Dat, .Read, [['0']], true, some 5500, false⟩

/-- Witness for the amended C5: at `now = 6000` ms a Request sent at 0 has
6 whole elapsed seconds and is evicted. -/
theorem c5_timeout_eviction_amended_witness :
    ([{ c2Req with marked_as_deleted := true }, c5Other] : List Request)[0]?.map
        Request.marked_as_deleted = some true ∧
    ({ c2Req with marked_as_deleted := true } : Request) ∉
      cleanRequests [{ c2Req with marked_as_deleted := true }, c5Other] := by
  have h := (c5_timeout_eviction_amended 6000 SharedState.new [] [c5Other] c2Req [] 0
    (by decide) (by decide) rfl (by decide)
    (by intro x hx; cases hx)
    (by intro x hx; simp at hx; subst hx; decide)).2
    [{ c2Req with marked_as_deleted := true }, c5Other] [] SharedState.new
    (by decide)
  exact ⟨h.1, h.2 _ (by decide)⟩

/-- Witness for C8 at concrete values. -/
theorem c8_submit_allocates_witness :
    (handleRequest [] 99999 3 ['2', '1', '0']).1 =
      [Request.new 99999 .Dat .Write [['3'], ['2', '1', '0']]] ∧
    (handleRequest [] 99999 3 ['2', '1', '0']).2.2 = 99999 ∧
    (handleRequest [] 99999 3 ['2', '1', '0']).2.1 = 0 := by
  have h := c8_submit_allocates [] 99999 3 ['2', '1', '0']
  refine ⟨?_, h.2.2.1, ?_⟩
  · rw [h.1]
    decide
  · rw [h.2.2.2.2.1 (by omega)]

end Hottoh
